import Mathlib

/-! tufitnessv2: the entity access layer of `index.js`

A shallow embedding of the Express handlers of `src/index.js` together with a
model of the collaborators they talk to.

Embedded from the source:

* every handler (`getAll`, `getById`, `deleteById`, the `POST` and `PUT`
  handlers of the six entities, the payment delete, `login`), with the SQL text
  built exactly as the handler builds it (string literals, the table name
  spliced by the three generic handlers, the conditional concatenation of the
  payment update), its parameter array, its status codes and its bodies;
* the column lists of the six `CREATE TABLE` statements;
* the file name chosen by the disk storage for an uploaded picture.

Models of what lies outside the repository:

* the relational backend is a tokenizer, a parser and an interpreter for the
  fragment of SQL that the handlers emit, over six tables with an
  auto-incrementing integer key; it returns rows, the number of changed rows
  and the generated key, and a failing call changes nothing;
* the driver leaves a parameter that is `undefined` unbound, which the backend
  reads as NULL, and binds any other scalar as it is;
* the columns carry the types of their `CREATE TABLE`; a bound value of the
  class of its column (NULL, a string in a text column, a number in a numeric
  column) is stored and read back as it is, and what the backend makes of any
  other value, and which number it reads from the text of a path id, is left
  open: the general statements hold for every such conversion, and the
  examples are evaluated with one that handles plain decimal numerals;
* backend faults, the failure of `fs.unlink` and the order in which the two
  statements of the payment delete reach the backend are inputs of the model.

Request values are JSON scalars: null, numbers and strings; a number stands
for the JavaScript number it spells. Every handler
records the statements it hands to the driver, the values it passes to
`fs.unlink` and the lines it logs, so that claims about them are claims about
the handler itself.
-/

namespace TuFitness

/-! ## Values -/

/-- A scalar of a JSON body or of a table cell: null, a decimal number
`digits / 10 ^ scale`, or a string. -/
inductive Val where
  | null
  | num (digits : Int) (scale : Nat)
  | text (s : String)
  deriving DecidableEq

/-- A JavaScript value at a bind position; `none` is `undefined`. -/
abbrev Arg := Option Val

/-- A JavaScript object with scalar fields (a JSON body, a result row). -/
abbrev Obj := List (String × Val)

/-- Property read `obj.key`: `undefined` when the key is missing. -/
def Obj.field (o : Obj) (key : String) : Arg := o.lookup key

/-! ## The SQL fragment understood by the backend -/

/-- Lexical tokens of the SQL fragment. -/
inductive Tok where
  | word (s : String)
  | star
  | lparen
  | rparen
  | comma
  | eq
  | qmark
  | bad (c : Char)
  deriving DecidableEq

/-- Characters of identifiers and keywords. -/
def isWordChar (c : Char) : Bool := c.isAlphanum || c == '_'

/-- The token of a punctuation character. -/
def punct (c : Char) : Tok :=
  if c == '*' then Tok.star
  else if c == '(' then Tok.lparen
  else if c == ')' then Tok.rparen
  else if c == ',' then Tok.comma
  else if c == '=' then Tok.eq
  else if c == '?' then Tok.qmark
  else Tok.bad c

/-- Close the word collected so far (held reversed) in front of `rest`. -/
def flushWord (acc : List Char) (rest : List Tok) : List Tok :=
  match acc with
  | [] => rest
  | _ :: _ => Tok.word (String.mk acc.reverse) :: rest

/-- Tokenizer: `acc` is the current word, reversed. -/
def tokenizeAux : List Char → List Char → List Tok
  | [], acc => flushWord acc []
  | c :: cs, acc =>
    if isWordChar c then tokenizeAux cs (c :: acc)
    else if c.isWhitespace then flushWord acc (tokenizeAux cs [])
    else flushWord acc (punct c :: tokenizeAux cs [])

/-- Tokens of a statement text. -/
def tokenize (sql : String) : List Tok := tokenizeAux sql.data []

/-- A statement of the fragment. Every value position is a positional
placeholder: `filter` lists the columns of `WHERE c1 = ? AND c2 = ?`. -/
inductive Stmt where
  | select (proj : Option (List String)) (table : String) (filter : List String)
  | insert (table : String) (cols : List String) (slots : Nat)
  | update (table : String) (cols : List String) (filter : List String)
  | delete (table : String) (filter : List String)
  deriving DecidableEq

/-- Parser of `c1 = ? AND c2 = ? ...` up to the end of the statement. -/
def parseConj : List Tok → Option (List String)
  | Tok.word c :: Tok.eq :: Tok.qmark :: rest =>
    match rest with
    | [] => some [c]
    | Tok.word k :: rest2 =>
      if k = "AND" then (parseConj rest2).map (fun cs => c :: cs) else none
    | _ => none
  | _ => none

/-- Parser of an optional `WHERE` clause that ends the statement. -/
def parseFilter : List Tok → Option (List String)
  | [] => some []
  | Tok.word k :: rest => if k = "WHERE" then parseConj rest else none
  | _ => none

/-- Parser of `c1 = ?, c2 = ? ...`; returns the columns and the remaining tokens. -/
def parseAssigns : List Tok → Option (List String × List Tok)
  | Tok.word c :: Tok.eq :: Tok.qmark :: rest =>
    match rest with
    | Tok.comma :: rest2 =>
      (parseAssigns rest2).map (fun p => (c :: p.1, p.2))
    | _ => some ([c], rest)
  | _ => none

/-- Parser of `c1, c2, ...)`; returns the names and the tokens after `)`. -/
def parseNames : List Tok → Option (List String × List Tok)
  | Tok.word c :: rest =>
    match rest with
    | Tok.comma :: rest2 => (parseNames rest2).map (fun p => (c :: p.1, p.2))
    | Tok.rparen :: rest2 => some ([c], rest2)
    | _ => none
  | _ => none

/-- Parser of `?, ?, ...)` ending the statement; returns the number of placeholders. -/
def parseSlots : List Tok → Option Nat
  | Tok.qmark :: rest =>
    match rest with
    | Tok.comma :: rest2 => (parseSlots rest2).map (fun n => n + 1)
    | [Tok.rparen] => some 1
    | _ => none
  | _ => none

/-- Parser of a token list into a statement. -/
def parseToks : List Tok → Option Stmt
  | Tok.word k :: rest =>
    if k = "SELECT" then
      match rest with
      | Tok.star :: Tok.word f :: Tok.word t :: rest2 =>
        if f = "FROM" then (parseFilter rest2).map (Stmt.select none t) else none
      | Tok.word c :: Tok.word f :: Tok.word t :: rest2 =>
        if f = "FROM" then (parseFilter rest2).map (Stmt.select (some [c]) t) else none
      | _ => none
    else if k = "DELETE" then
      match rest with
      | Tok.word f :: Tok.word t :: rest2 =>
        if f = "FROM" then (parseFilter rest2).map (Stmt.delete t) else none
      | _ => none
    else if k = "UPDATE" then
      match rest with
      | Tok.word t :: Tok.word s :: rest2 =>
        if s = "SET" then
          match parseAssigns rest2 with
          | some (cols, rest3) => (parseFilter rest3).map (Stmt.update t cols)
          | none => none
        else none
      | _ => none
    else if k = "INSERT" then
      match rest with
      | Tok.word i :: Tok.word t :: Tok.lparen :: rest2 =>
        if i = "INTO" then
          match parseNames rest2 with
          | some (cols, Tok.word v :: Tok.lparen :: rest3) =>
            if v = "VALUES" then (parseSlots rest3).map (Stmt.insert t cols) else none
          | _ => none
        else none
      | _ => none
    else none
  | _ => none

/-- Parser of a statement text. -/
def parseSql (sql : String) : Option Stmt := parseToks (tokenize sql)

/-- Number of positional placeholders of a statement. -/
def Stmt.slotCount : Stmt → Nat
  | Stmt.select _ _ filter => filter.length
  | Stmt.insert _ _ slots => slots
  | Stmt.update _ cols filter => cols.length + filter.length
  | Stmt.delete _ filter => filter.length

/-- Number of `?` characters of a statement text. -/
def countPlaceholders (sql : String) : Nat := sql.data.count '?'

/-! ## Tables -/

/-- The six entity types. -/
inductive Entity where
  | product
  | user
  | subscription
  | payment
  | promotion
  | contact
  deriving DecidableEq

/-- Table name of an entity, as passed to `getAll`, `getById` and `deleteById`. -/
def Entity.tableName : Entity → String
  | Entity.product => "product"
  | Entity.user => "user"
  | Entity.subscription => "subscription"
  | Entity.payment => "payment"
  | Entity.promotion => "promotion"
  | Entity.contact => "contact"

/-- Columns of each table after `id`, in the order of its `CREATE TABLE`. -/
def Entity.columns : Entity → List String
  | Entity.product => ["package_id", "name", "price", "description", "duration", "picture"]
  | Entity.user =>
    ["email", "password", "firstname", "lastname", "tel", "date_of_birth", "id_card_number",
      "member_type"]
  | Entity.subscription => ["product_id", "customer", "payment", "end_date"]
  | Entity.payment => ["payment_owner", "method", "date", "picture"]
  | Entity.promotion =>
    ["start_date", "end_date", "promotion_product", "discount_percent", "discount_code"]
  | Entity.contact => ["contact_name", "contact_email", "contact_tel", "title", "detail"]

/-- The entity stored in the table of a given name. -/
def Entity.ofTable? (name : String) : Option Entity :=
  if name = "product" then some Entity.product
  else if name = "user" then some Entity.user
  else if name = "subscription" then some Entity.subscription
  else if name = "payment" then some Entity.payment
  else if name = "promotion" then some Entity.promotion
  else if name = "contact" then some Entity.contact
  else none

/-- A stored row: its key and the value of each of its columns. -/
structure Row where
  id : Nat
  vals : String → Val

/-- A table: its rows in key order and the `sqlite_sequence` counter of
`AUTOINCREMENT` (the largest key ever assigned). -/
structure Table where
  rows : List Row
  seq : Nat

/-- The database: one table per entity. -/
abbrev Db := Entity → Table

/-- The database right after the `CREATE TABLE IF NOT EXISTS` statements. -/
def Db.empty : Db := fun _ => { rows := [], seq := 0 }

/-- Value of a column of a row; `id` is the key. -/
def Row.col (r : Row) (c : String) : Val :=
  if c = "id" then Val.num r.id 0 else r.vals c

/-- The row as the driver hands it to JavaScript for `SELECT *` over a table
with the given columns. -/
def Row.toObj (columns : List String) (r : Row) : Obj :=
  ("id", Val.num r.id 0) :: columns.map (fun c => (c, r.vals c))

/-- The row as the driver hands it over for a column list or for `*`. -/
def Row.project (columns : List String) (proj : Option (List String)) (r : Row) : Obj :=
  match proj with
  | none => r.toObj columns
  | some cols => cols.map (fun c => (c, r.col c))

/-- The storage class that the backend derives from the declared type of a
column. -/
inductive ColType where
  | integer
  | real
  | text
  | numeric
  deriving DecidableEq

/-- Declared columns of each table after `id`, in the order and with the types
of its `CREATE TABLE`: `INTEGER` is `integer`, `REAL` is `real`, `VARCHAR(n)`,
`VARCHAR` and `TEXT` are `text`, `DATETIME` is `numeric`. -/
def Entity.declared : Entity → List (String × ColType)
  | Entity.product =>
    [("package_id", ColType.integer), ("name", ColType.text), ("price", ColType.real),
      ("description", ColType.text), ("duration", ColType.integer), ("picture", ColType.text)]
  | Entity.user =>
    [("email", ColType.text), ("password", ColType.text), ("firstname", ColType.text),
      ("lastname", ColType.text), ("tel", ColType.text), ("date_of_birth", ColType.numeric),
      ("id_card_number", ColType.integer), ("member_type", ColType.text)]
  | Entity.subscription =>
    [("product_id", ColType.integer), ("customer", ColType.integer),
      ("payment", ColType.integer), ("end_date", ColType.numeric)]
  | Entity.payment =>
    [("payment_owner", ColType.integer), ("method", ColType.text), ("date", ColType.numeric),
      ("picture", ColType.text)]
  | Entity.promotion =>
    [("start_date", ColType.numeric), ("end_date", ColType.numeric),
      ("promotion_product", ColType.integer), ("discount_percent", ColType.real),
      ("discount_code", ColType.text)]
  | Entity.contact =>
    [("contact_name", ColType.text), ("contact_email", ColType.text),
      ("contact_tel", ColType.text), ("title", ColType.text), ("detail", ColType.text)]

/-- Storage class of a column of a table. -/
def Entity.colType (e : Entity) (c : String) : ColType :=
  (e.declared.lookup c).getD ColType.numeric

/-- The type conversions of the backend, which this development leaves open.
`readKey s` is the whole number that the text `s` is read as when it is
compared with an integer key, `none` when the backend reads no such number
from it. `convert t v` is what a column of class `t` holds after the bound
value `v`, for a value that is not of that class already. Every general
statement below holds for whatever these two functions are, hence for the
conversions of the backend in use. -/
class Affinity where
  readKey : String → Option Nat
  convert : ColType → Val → Val

/-- The value is of the class of the column: NULL in any column, a string in a
text column, a number in an integer, real or numeric column. Such a value is
stored and read back as the JavaScript value it is. -/
def fits (t : ColType) (v : Val) : Bool :=
  match v with
  | Val.null => true
  | Val.text _ => t == ColType.text
  | Val.num _ _ => t != ColType.text

/-- Equality of two values that are not NULL: strings are equal when they are
the same string, numbers when they are the same number, a string and a number
never. -/
def Val.same : Val → Val → Bool
  | Val.text a, Val.text b => a == b
  | Val.num d s, Val.num d2 s2 => d * 10 ^ s2 == d2 * 10 ^ s
  | _, _ => false

section
variable [Affinity]

/-- What a column of class `t` holds after the bound value `v`. -/
def storeValue (t : ColType) (v : Val) : Val :=
  if fits t v then v else Affinity.convert t v

/-- Comparison `id = ?` of the integer key with a bound value: NULL equals
nothing, a number equals the key of that value, a text is first read as a
number. The path id of a request always arrives as a text. -/
def keyMatches (v : Val) (k : Nat) : Bool :=
  match v with
  | Val.null => false
  | Val.num d scale => d == (k : Int) * 10 ^ scale
  | Val.text s => Affinity.readKey s == some k

/-- Comparison `c = ?` of a cell with a bound value, for the column classes
`ty` of the table: the bound value is first converted as the column would
store it; NULL equals nothing. -/
def cellMatches (ty : String → ColType) (r : Row) (c : String) (v : Val) : Bool :=
  if c = "id" then keyMatches v r.id
  else
    match storeValue (ty c) v with
    | Val.null => false
    | w => Val.same (r.col c) w

/-- A row satisfies `c1 = ? AND c2 = ? ...` for the values bound in order. -/
def rowMatches (ty : String → ColType) (filter : List String) (args : List Val) (r : Row) :
    Bool :=
  (filter.zip args).all (fun p => cellMatches ty r p.1 p.2)

/-- Largest key of a list of rows. -/
def maxId (rows : List Row) : Nat := rows.foldr (fun r m => max r.id m) 0

/-- Key given by `AUTOINCREMENT` to the next inserted row: one more than the
largest key the table holds or has ever held. -/
def Table.nextId (t : Table) : Nat := max t.seq (maxId t.rows) + 1

/-- Row with the assigned columns overwritten, each value stored as its
column stores it. -/
def Row.assign (ty : String → ColType) (asg : Obj) (r : Row) : Row :=
  { id := r.id,
    vals := fun c =>
      match asg.lookup c with
      | some v => storeValue (ty c) v
      | none => r.vals c }

/-- The driver binds `undefined` as NULL. -/
def bindArg (a : Arg) : Val := a.getD Val.null

/-- Placeholders without a bound value stay NULL. -/
def padArgs (slots : Nat) (args : List Val) : List Val :=
  args ++ List.replicate (slots - args.length) Val.null

/-- Result of a statement: the selected rows, or the `changes` and `lastID`
of a write. -/
inductive Reply where
  | rows (rs : List Obj)
  | done (changes : Nat) (lastID : Nat)
  deriving DecidableEq

/-- Every column of a filter is the key or a column of the table. -/
def knownFilter (e : Entity) (filter : List String) : Bool :=
  filter.all (fun c => c == "id" || e.columns.contains c)

/-- Every listed column is a column of the table. -/
def knownCols (e : Entity) (cols : List String) : Bool :=
  cols.all (fun c => e.columns.contains c)

/-- Interpreter of a parsed statement on the database, for the bound values.
A select leaves the database as it is and returns the matching rows in table
order; an insert appends one row under the next key, with NULL in the columns
it does not list; an update overwrites the listed columns of every matching
row and reports how many rows matched; a delete removes every matching row
and reports how many. Inserted and updated values are stored as their column
stores them. The `lastID` of an update or delete is not read by any handler
and is reported as 0. -/
def execStmt (db : Db) (st : Stmt) (args : List Val) : Except String (Db × Reply) :=
  match st with
  | Stmt.select proj t filter =>
    match Entity.ofTable? t with
    | none => Except.error ("SQLITE_ERROR: no such table: " ++ t)
    | some e =>
      if knownFilter e filter && knownFilter e (proj.getD []) then
        Except.ok (db, Reply.rows
          (((db e).rows.filter (rowMatches e.colType filter args)).map
            (Row.project e.columns proj)))
      else Except.error "SQLITE_ERROR: no such column"
  | Stmt.insert t cols slots =>
    match Entity.ofTable? t with
    | none => Except.error ("SQLITE_ERROR: no such table: " ++ t)
    | some e =>
      if knownCols e cols && cols.length == slots then
        let key := (db e).nextId
        let asg := cols.zip args
        let row : Row :=
          { id := key,
            vals := fun c => storeValue (e.colType c) ((asg.lookup c).getD Val.null) }
        Except.ok (Function.update db e { rows := (db e).rows ++ [row], seq := key },
          Reply.done 1 key)
      else Except.error "SQLITE_ERROR: column and value lists do not match the table"
  | Stmt.update t cols filter =>
    match Entity.ofTable? t with
    | none => Except.error ("SQLITE_ERROR: no such table: " ++ t)
    | some e =>
      if knownCols e cols && knownFilter e filter then
        let asg := cols.zip args
        let hit := rowMatches e.colType filter (args.drop cols.length)
        let rows := (db e).rows.map (fun r => if hit r then r.assign e.colType asg else r)
        Except.ok (Function.update db e { rows := rows, seq := (db e).seq },
          Reply.done ((db e).rows.countP hit) 0)
      else Except.error "SQLITE_ERROR: no such column"
  | Stmt.delete t filter =>
    match Entity.ofTable? t with
    | none => Except.error ("SQLITE_ERROR: no such table: " ++ t)
    | some e =>
      if knownFilter e filter then
        let hit := rowMatches e.colType filter args
        let rows := (db e).rows.filter (fun r => !hit r)
        Except.ok (Function.update db e { rows := rows, seq := (db e).seq },
          Reply.done ((db e).rows.countP hit) 0)
      else Except.error "SQLITE_ERROR: no such column"

/-- One call into the backend: `fault` is a failure raised by the store itself
(the call then changes nothing); otherwise the text is parsed, the parameters
are bound positionally and the statement runs. -/
def backend (db : Db) (sql : String) (params : List Arg) (fault : Option String) :
    Except String (Db × Reply) :=
  match fault with
  | some msg => Except.error msg
  | none =>
    match parseSql sql with
    | none => Except.error "SQLITE_ERROR: syntax error"
    | some st =>
      if st.slotCount < params.length then
        Except.error "SQLITE_RANGE: column index out of range"
      else execStmt db st (padArgs st.slotCount (params.map bindArg))

/-- Driver call `db.all`: every result row. -/
def dbAll (db : Db) (sql : String) (params : List Arg) (fault : Option String) :
    Except String (Db × List Obj) :=
  match backend db sql params fault with
  | Except.error msg => Except.error msg
  | Except.ok (db2, Reply.rows rs) => Except.ok (db2, rs)
  | Except.ok (db2, Reply.done _ _) => Except.ok (db2, [])

/-- Driver call `db.get`: the first result row, or `undefined`. -/
def dbGet (db : Db) (sql : String) (params : List Arg) (fault : Option String) :
    Except String (Db × Option Obj) :=
  match backend db sql params fault with
  | Except.error msg => Except.error msg
  | Except.ok (db2, Reply.rows rs) => Except.ok (db2, rs.head?)
  | Except.ok (db2, Reply.done _ _) => Except.ok (db2, none)

/-- What `db.run` exposes as `this` in its callback. -/
structure RunInfo where
  changes : Nat
  lastID : Nat
  deriving DecidableEq

/-- Driver call `db.run`. -/
def dbRun (db : Db) (sql : String) (params : List Arg) (fault : Option String) :
    Except String (Db × RunInfo) :=
  match backend db sql params fault with
  | Except.error msg => Except.error msg
  | Except.ok (db2, Reply.rows _) => Except.ok (db2, { changes := 0, lastID := 0 })
  | Except.ok (db2, Reply.done changes lastID) =>
    Except.ok (db2, { changes := changes, lastID := lastID })

/-! ## Requests, responses and the handlers of `index.js` -/

/-- A file received by `upload.single(picture)`: the clock reading `Date.now()`
and the extension `path.extname(file.originalname)` used by the storage engine. -/
structure UploadedFile where
  now : Nat
  ext : String
  deriving DecidableEq

/-- The `filename` callback of the disk storage. -/
def filename (fieldname : String) (now : Nat) (ext : String) : String :=
  fieldname ++ "-" ++ toString now ++ ext

/-- Value of `req.file.path`: the destination `./uploads/` joined with the file name. -/
def UploadedFile.path (f : UploadedFile) : String :=
  "uploads/" ++ filename "picture" f.now f.ext

/-- A request: the `:id` segment of the path, the parsed body, the uploaded file. -/
structure Request where
  id : String
  body : Obj
  file : Option UploadedFile
  deriving DecidableEq

/-- A response body: one JSON object or an array of rows. -/
inductive Payload where
  | obj (fields : Obj)
  | list (rows : List Obj)
  deriving DecidableEq

/-- Status and body of the response. -/
structure Response where
  status : Nat
  body : Payload
  deriving DecidableEq

/-- Everything a handler does: the database it leaves, its response, the
statements it handed to the driver (text and parameter array), the values it
passed to `fs.unlink`, and its `console.error` lines. -/
structure Outcome where
  db : Db
  res : Response
  issued : List (String × List Arg)
  unlinked : List Val
  log : List String

/-- Response `res.status(500).json({ error: err.message })`. -/
def storeFailure (msg : String) : Response :=
  { status := 500, body := Payload.obj [("error", Val.text msg)] }

/-- Response with a single `message` field. -/
def messageResponse (status : Nat) (msg : String) : Response :=
  { status := status, body := Payload.obj [("message", Val.text msg)] }

/-- JavaScript truthiness of a scalar. -/
def truthy : Val → Bool
  | Val.null => false
  | Val.num d _ => d != 0
  | Val.text s => s != ""

/-- Handler `getAll`. -/
def getAll (tableName : String) (db : Db) (fault : Option String) : Outcome :=
  let sql := "SELECT * FROM " ++ tableName
  match dbAll db sql [] fault with
  | Except.error msg =>
    { db := db, res := storeFailure msg, issued := [(sql, [])], unlinked := [], log := [] }
  | Except.ok (db2, rows) =>
    { db := db2, res := { status := 200, body := Payload.list rows }, issued := [(sql, [])],
      unlinked := [], log := [] }

/-- Handler `getById`. -/
def getById (tableName : String) (db : Db) (req : Request) (fault : Option String) : Outcome :=
  let id := some (Val.text req.id)
  let sql := "SELECT * FROM " ++ tableName ++ " WHERE id = ?"
  match dbGet db sql [id] fault with
  | Except.error msg =>
    { db := db, res := storeFailure msg, issued := [(sql, [id])], unlinked := [], log := [] }
  | Except.ok (db2, none) =>
    { db := db2, res := messageResponse 404 (tableName ++ " not found"),
      issued := [(sql, [id])], unlinked := [], log := [] }
  | Except.ok (db2, some row) =>
    { db := db2, res := { status := 200, body := Payload.obj row }, issued := [(sql, [id])],
      unlinked := [], log := [] }

/-- Handler `deleteById`. -/
def deleteById (tableName : String) (db : Db) (req : Request) (fault : Option String) :
    Outcome :=
  let id := some (Val.text req.id)
  let sql := "DELETE FROM " ++ tableName ++ " WHERE id = ?"
  match dbRun db sql [id] fault with
  | Except.error msg =>
    { db := db, res := storeFailure msg, issued := [(sql, [id])], unlinked := [], log := [] }
  | Except.ok (db2, info) =>
    if info.changes = 0 then
      { db := db2, res := messageResponse 404 (tableName ++ " not found"),
        issued := [(sql, [id])], unlinked := [], log := [] }
    else
      { db := db2, res := messageResponse 200 (tableName ++ " deleted successfully"),
        issued := [(sql, [id])], unlinked := [], log := [] }

/-- The `db.run` call and callback shared by the five plain `POST` handlers. -/
def insertReply (db : Db) (sql : String) (params : List Arg) (fault : Option String) :
    Outcome :=
  match dbRun db sql params fault with
  | Except.error msg =>
    { db := db, res := storeFailure msg, issued := [(sql, params)], unlinked := [], log := [] }
  | Except.ok (db2, info) =>
    { db := db2,
      res := { status := 201, body := Payload.obj [("id", Val.num info.lastID 0)] },
      issued := [(sql, params)], unlinked := [], log := [] }

/-- The `db.run` call and callback shared by the `PUT` handlers; `label` is the
capitalised entity name of the messages, `extra` the further fields of the
success body. -/
def updateReply (db : Db) (sql : String) (params : List Arg) (fault : Option String)
    (label : String) (extra : Obj) : Outcome :=
  match dbRun db sql params fault with
  | Except.error msg =>
    { db := db, res := storeFailure msg, issued := [(sql, params)], unlinked := [], log := [] }
  | Except.ok (db2, info) =>
    if info.changes = 0 then
      { db := db2, res := messageResponse 404 (label ++ " not found"),
        issued := [(sql, params)], unlinked := [], log := [] }
    else
      { db := db2,
        res := { status := 200,
                 body := Payload.obj (("message", Val.text (label ++ " updated successfully"))
                   :: extra) },
        issued := [(sql, params)], unlinked := [], log := [] }

/-- Handler `POST /api/products`. -/
def postProducts (db : Db) (req : Request) (fault : Option String) : Outcome :=
  let b := req.body
  insertReply db
    "INSERT INTO product (package_id, name, price, description, duration, picture) VALUES (?, ?, ?, ?, ?, ?)"
    [b.field "package_id", b.field "name", b.field "price", b.field "description",
      b.field "duration", b.field "picture"] fault

/-- Handler `PUT /api/products/:id`. -/
def putProducts (db : Db) (req : Request) (fault : Option String) : Outcome :=
  let b := req.body
  updateReply db
    "UPDATE product SET package_id = ?, name = ?, price = ?, description = ?, duration = ?, picture = ? WHERE id = ?"
    [b.field "package_id", b.field "name", b.field "price", b.field "description",
      b.field "duration", b.field "picture", some (Val.text req.id)] fault "Product" []

/-- Handler `POST /api/users`. -/
def postUsers (db : Db) (req : Request) (fault : Option String) : Outcome :=
  let b := req.body
  insertReply db
    "INSERT INTO user (email, password, firstname, lastname, tel, date_of_birth, id_card_number, member_type) VALUES (?, ?, ?, ?, ?, ?, ?, ?)"
    [b.field "email", b.field "password", b.field "firstname", b.field "lastname",
      b.field "tel", b.field "date_of_birth", b.field "id_card_number",
      b.field "member_type"] fault

/-- Handler `PUT /api/users/:id`. -/
def putUsers (db : Db) (req : Request) (fault : Option String) : Outcome :=
  let b := req.body
  updateReply db
    "UPDATE user SET email = ?, password = ?, firstname = ?, lastname = ?, tel = ?, date_of_birth = ?, id_card_number = ?, member_type = ? WHERE id = ?"
    [b.field "email", b.field "password", b.field "firstname", b.field "lastname",
      b.field "tel", b.field "date_of_birth", b.field "id_card_number",
      b.field "member_type", some (Val.text req.id)] fault "User" []

/-- Handler `POST /api/subscriptions`. -/
def postSubscriptions (db : Db) (req : Request) (fault : Option String) : Outcome :=
  let b := req.body
  insertReply db
    "INSERT INTO subscription (product_id, customer, payment, end_date) VALUES (?, ?, ?, ?)"
    [b.field "product_id", b.field "customer", b.field "payment", b.field "end_date"] fault

/-- Handler `PUT /api/subscriptions/:id`. -/
def putSubscriptions (db : Db) (req : Request) (fault : Option String) : Outcome :=
  let b := req.body
  updateReply db
    "UPDATE subscription SET product_id = ?, customer = ?, payment = ?, end_date = ? WHERE id = ?"
    [b.field "product_id", b.field "customer", b.field "payment", b.field "end_date",
      some (Val.text req.id)] fault "Subscription" []

/-- Value of `req.file ? req.file.path : null`. -/
def picturePath (req : Request) : Val :=
  match req.file with
  | some f => Val.text f.path
  | none => Val.null

/-- Handler `POST /api/payments`. -/
def postPayments (db : Db) (req : Request) (fault : Option String) : Outcome :=
  let b := req.body
  let sql := "INSERT INTO payment (payment_owner, method, date, picture) VALUES (?, ?, ?, ?)"
  let params : List Arg :=
    [b.field "payment_owner", b.field "method", b.field "date", some (picturePath req)]
  match dbRun db sql params fault with
  | Except.error msg =>
    { db := db, res := storeFailure msg, issued := [(sql, params)], unlinked := [], log := [] }
  | Except.ok (db2, info) =>
    { db := db2,
      res := { status := 201,
               body := Payload.obj [("id", Val.num info.lastID 0), ("picture", picturePath req)] },
      issued := [(sql, params)], unlinked := [], log := [] }

/-- Statement text assembled by `PUT /api/payments/:id`. -/
def putPaymentsSql (req : Request) : String :=
  let sql := "UPDATE payment SET payment_owner = ?, method = ?, date = ?"
  let sql := if truthy (picturePath req) then sql ++ ", picture = ?" else sql
  sql ++ " WHERE id = ?"

/-- Parameter array assembled by `PUT /api/payments/:id`. -/
def putPaymentsParams (req : Request) : List Arg :=
  let b := req.body
  let params : List Arg := [b.field "payment_owner", b.field "method", b.field "date"]
  let params := if truthy (picturePath req) then params ++ [some (picturePath req)] else params
  params ++ [some (Val.text req.id)]

/-- Handler `PUT /api/payments/:id`. -/
def putPayments (db : Db) (req : Request) (fault : Option String) : Outcome :=
  updateReply db (putPaymentsSql req) (putPaymentsParams req) fault "Payment"
    [("picture", picturePath req)]

/-- Inputs of a request that come from outside the program: the fault (if any)
of its statement, and for the payment delete the fault of the picture lookup,
the error of `fs.unlink`, and whether the lookup reaches the backend before
the delete statement. -/
structure Env where
  fault : Option String
  lookupFault : Option String
  unlinkError : Option String
  lookupFirst : Bool
  deriving DecidableEq

/-- The picture lookup of `DELETE /api/payments/:id` with its callback: returns
the database, the values passed to `fs.unlink` and the logged lines. -/
def pictureCleanup (db : Db) (req : Request) (env : Env) : Db × List Val × List String :=
  match dbGet db "SELECT picture FROM payment WHERE id = ?" [some (Val.text req.id)]
      env.lookupFault with
  | Except.error msg => (db, [], ["Error fetching payment for image deletion: " ++ msg])
  | Except.ok (db2, none) => (db2, [], [])
  | Except.ok (db2, some row) =>
    match row.field "picture" with
    | none => (db2, [], [])
    | some p =>
      if truthy p then
        match env.unlinkError with
        | some e => (db2, [p], ["Error deleting image file: " ++ e])
        | none => (db2, [p], [])
      else (db2, [], [])

/-- Statement handed over by the picture lookup. -/
def pictureLookupIssued (req : Request) : String × List Arg :=
  ("SELECT picture FROM payment WHERE id = ?", [some (Val.text req.id)])

/-- Handler `DELETE /api/payments/:id`. -/
def deletePayments (db : Db) (req : Request) (env : Env) : Outcome :=
  if env.lookupFirst then
    let c := pictureCleanup db req env
    let out := deleteById "payment" c.1 req env.fault
    { db := out.db, res := out.res, issued := pictureLookupIssued req :: out.issued,
      unlinked := c.2.1, log := c.2.2 }
  else
    let out := deleteById "payment" db req env.fault
    let c := pictureCleanup out.db req env
    { db := c.1, res := out.res, issued := pictureLookupIssued req :: out.issued,
      unlinked := c.2.1, log := c.2.2 }

/-- Handler `POST /api/promotions`. -/
def postPromotions (db : Db) (req : Request) (fault : Option String) : Outcome :=
  let b := req.body
  insertReply db
    "INSERT INTO promotion (start_date, end_date, promotion_product, discount_percent, discount_code) VALUES (?, ?, ?, ?, ?)"
    [b.field "start_date", b.field "end_date", b.field "promotion_product",
      b.field "discount_percent", b.field "discount_code"] fault

/-- Handler `PUT /api/promotions/:id`. -/
def putPromotions (db : Db) (req : Request) (fault : Option String) : Outcome :=
  let b := req.body
  updateReply db
    "UPDATE promotion SET start_date = ?, end_date = ?, promotion_product = ?, discount_percent = ?, discount_code = ? WHERE id = ?"
    [b.field "start_date", b.field "end_date", b.field "promotion_product",
      b.field "discount_percent", b.field "discount_code", some (Val.text req.id)] fault
    "Promotion" []

/-- Handler `POST /api/contacts`. -/
def postContacts (db : Db) (req : Request) (fault : Option String) : Outcome :=
  let b := req.body
  insertReply db
    "INSERT INTO contact (contact_name, contact_email, contact_tel, title, detail) VALUES (?, ?, ?, ?, ?)"
    [b.field "contact_name", b.field "contact_email", b.field "contact_tel", b.field "title",
      b.field "detail"] fault

/-- Handler `PUT /api/contacts/:id`. -/
def putContacts (db : Db) (req : Request) (fault : Option String) : Outcome :=
  let b := req.body
  updateReply db
    "UPDATE contact SET contact_name = ?, contact_email = ?, contact_tel = ?, title = ?, detail = ? WHERE id = ?"
    [b.field "contact_name", b.field "contact_email", b.field "contact_tel", b.field "title",
      b.field "detail", some (Val.text req.id)] fault "Contact" []

/-- Handler `POST /api/login`. -/
def login (db : Db) (req : Request) (fault : Option String) : Outcome :=
  let email := req.body.field "email"
  let password := req.body.field "password"
  let sql := "SELECT * FROM user WHERE email = ? AND password = ?"
  match dbGet db sql [email, password] fault with
  | Except.error msg =>
    { db := db, res := storeFailure msg, issued := [(sql, [email, password])], unlinked := [],
      log := [] }
  | Except.ok (db2, none) =>
    { db := db2,
      res := { status := 401, body := Payload.obj [("error", Val.text "Invalid email or password")] },
      issued := [(sql, [email, password])], unlinked := [], log := [] }
  | Except.ok (db2, some user) =>
    { db := db2,
      res := { status := 200, body := Payload.obj (user.filter (fun p => p.1 != "password")) },
      issued := [(sql, [email, password])], unlinked := [], log := [] }

/-! ## Routing -/

/-- The operations of an entity service. -/
inductive Op where
  | list
  | get
  | create
  | update
  | delete
  deriving DecidableEq

/-- The routes of the application. -/
inductive Endpoint where
  | crud (e : Entity) (op : Op)
  | login
  deriving DecidableEq

/-- The `POST` handler of each entity. -/
def create (e : Entity) (db : Db) (req : Request) (fault : Option String) : Outcome :=
  match e with
  | Entity.product => postProducts db req fault
  | Entity.user => postUsers db req fault
  | Entity.subscription => postSubscriptions db req fault
  | Entity.payment => postPayments db req fault
  | Entity.promotion => postPromotions db req fault
  | Entity.contact => postContacts db req fault

/-- The `PUT` handler of each entity. -/
def update (e : Entity) (db : Db) (req : Request) (fault : Option String) : Outcome :=
  match e with
  | Entity.product => putProducts db req fault
  | Entity.user => putUsers db req fault
  | Entity.subscription => putSubscriptions db req fault
  | Entity.payment => putPayments db req fault
  | Entity.promotion => putPromotions db req fault
  | Entity.contact => putContacts db req fault

/-- The `DELETE` handler of each entity. -/
def delete (e : Entity) (db : Db) (req : Request) (env : Env) : Outcome :=
  match e with
  | Entity.payment => deletePayments db req env
  | _ => deleteById e.tableName db req env.fault

/-- The handler registered for a route. -/
def handle (ep : Endpoint) (db : Db) (req : Request) (env : Env) : Outcome :=
  match ep with
  | Endpoint.crud e Op.list => getAll e.tableName db env.fault
  | Endpoint.crud e Op.get => getById e.tableName db req env.fault
  | Endpoint.crud e Op.create => create e db req env.fault
  | Endpoint.crud e Op.update => update e db req env.fault
  | Endpoint.crud e Op.delete => delete e db req env
  | Endpoint.login => login db req env.fault

/-- One call of the service: a route, a request and its outside inputs. -/
structure Call where
  ep : Endpoint
  req : Request
  env : Env

/-- The database after a sequence of calls, each served in turn. -/
def runCalls (db : Db) : List Call → Db
  | [] => db
  | c :: cs => runCalls (handle c.ep db c.req c.env).db cs

/-- The body `{name:"Gym Pass", price:49.99, duration:30}` of the end-to-end scenario. -/
def gymPassBody : Obj :=
  [("name", Val.text "Gym Pass"), ("price", Val.num 4999 2), ("duration", Val.num 30 0)]

/-! ## Vocabulary of the statements below -/

/-- The path segment `id` selects the row `r`. -/
def hits (id : String) (r : Row) : Bool := keyMatches (Val.text id) r.id

/-- Columns in the `SET` list of the statement that `PUT` issues. -/
def writtenColumns (e : Entity) (req : Request) : List String :=
  match e with
  | Entity.payment =>
    if req.file.isSome then ["payment_owner", "method", "date", "picture"]
    else ["payment_owner", "method", "date"]
  | _ => e.columns

/-- Value that `POST` and `PUT` bind for a column: the body field of that name
(`undefined`, hence NULL, when the body has none), except the picture of a
payment, which is the path of the uploaded file or null. -/
def boundValue (e : Entity) (req : Request) (c : String) : Val :=
  if e = Entity.payment ∧ c = "picture" then picturePath req else bindArg (req.body.field c)

/-- Capitalised entity name used in the messages of the `PUT` handlers. -/
def Entity.label : Entity → String
  | Entity.product => "Product"
  | Entity.user => "User"
  | Entity.subscription => "Subscription"
  | Entity.payment => "Payment"
  | Entity.promotion => "Promotion"
  | Entity.contact => "Contact"

/-- What the column `c` holds after a `POST` or a `PUT` that writes it. -/
def storedValue (e : Entity) (req : Request) (c : String) : Val :=
  storeValue (e.colType c) (boundValue e req c)

/-- Row `r` after a `PUT` that selects it. -/
def Row.updated (e : Entity) (req : Request) (r : Row) : Row :=
  { id := r.id,
    vals := fun c => if c ∈ writtenColumns e req then storedValue e req c else r.vals c }

/-- Row that a `POST` stores under the key `key`. -/
def Row.created (e : Entity) (req : Request) (key : Nat) : Row :=
  { id := key, vals := fun c => if c ∈ e.columns then storedValue e req c else Val.null }

/-- Outcome of a `PUT` that meets no fault, given the outcome's own trace. -/
def updateOutcome (e : Entity) (db : Db) (req : Request) (extra : Obj)
    (issued : List (String × List Arg)) : Outcome :=
  { db := Function.update db e
      { rows := (db e).rows.map (fun r => if hits req.id r then r.updated e req else r),
        seq := (db e).seq },
    res := if (db e).rows.countP (hits req.id) = 0 then
        messageResponse 404 (e.label ++ " not found")
      else { status := 200,
             body := Payload.obj (("message", Val.text (e.label ++ " updated successfully"))
               :: extra) },
    issued := issued, unlinked := [], log := [] }

/-- Extra fields of the success body of a `PUT`. -/
def updateExtra (e : Entity) (req : Request) : Obj :=
  match e with
  | Entity.payment => [("picture", picturePath req)]
  | _ => []

/-- Outcome of a `POST` that meets no fault, given the outcome's own trace. -/
def createOutcome (e : Entity) (db : Db) (req : Request) (extra : Obj)
    (issued : List (String × List Arg)) : Outcome :=
  { db := Function.update db e
      { rows := (db e).rows ++ [Row.created e req (db e).nextId], seq := (db e).nextId },
    res := { status := 201,
             body := Payload.obj (("id", Val.num (db e).nextId 0) :: extra) },
    issued := issued, unlinked := [], log := [] }

/-- Extra fields of the success body of a `POST`. -/
def createExtra (e : Entity) (req : Request) : Obj :=
  match e with
  | Entity.payment => [("picture", picturePath req)]
  | _ => []

/-- The credentials of a login request select the row `r`. -/
def credentialsMatch (req : Request) (r : Row) : Bool :=
  rowMatches Entity.user.colType ["email", "password"]
    [bindArg (req.body.field "email"), bindArg (req.body.field "password")] r

/-! ## Reachable databases -/

/-- The ways in which a single call can change the database. -/
inductive Step (db : Db) : Db → Prop where
  | same : Step db db
  | created (e : Entity) (req : Request) :
    Step db (Function.update db e
      { rows := (db e).rows ++ [Row.created e req (db e).nextId], seq := (db e).nextId })
  | updated (e : Entity) (req : Request) :
    Step db (Function.update db e
      { rows := (db e).rows.map (fun r => if hits req.id r then r.updated e req else r),
        seq := (db e).seq })
  | deleted (e : Entity) (id : String) :
    Step db (Function.update db e
      { rows := (db e).rows.filter (fun r => !hits id r), seq := (db e).seq })

/-- Keys are pairwise distinct and none exceeds the sequence counter. -/
def TableOk (t : Table) : Prop :=
  (t.rows.map Row.id).Nodup ∧ ∀ r ∈ t.rows, r.id ≤ t.seq

/-- Every table of the database is well formed. -/
def DbOk (db : Db) : Prop := ∀ e, TableOk (db e)

/-- A database that the service can be in: the result of some calls on the
freshly created tables. -/
def Reachable (db : Db) : Prop := ∃ cs : List Call, runCalls Db.empty cs = db

/-- The key `k` is not in the table of `e` and will not be assigned again. -/
def Gone (e : Entity) (k : Nat) (db : Db) : Prop :=
  (∀ r ∈ (db e).rows, r.id ≠ k) ∧ k ≤ (db e).seq

end

/-! ## A backend for the examples, and concrete databases and requests -/

/-- Decimal value of a digit string, `none` when a character is not a digit. -/
def digitsToNat (acc : Nat) : List Char → Option Nat
  | [] => some acc
  | c :: cs => if c.isDigit then digitsToNat (acc * 10 + (c.toNat - 48)) cs else none

/-- A non-empty string of decimal digits read as the number it spells; any
other text gives `none`. -/
def textToNat? (s : String) : Option Nat :=
  match s.data with
  | [] => none
  | c :: cs => digitsToNat 0 (c :: cs)

/-- Conversion used in the examples: a whole number of at most 31 bits bound
to a text column is stored as its decimal text, a string of decimal digits
bound to an integer, real or numeric column is stored as the number it spells.
Other values, which no example binds, are kept as they are. -/
def plainConvert (t : ColType) (v : Val) : Val :=
  match v with
  | Val.null => Val.null
  | Val.num d scale =>
    if t = ColType.text ∧ scale = 0 ∧ d.natAbs < 2147483648 then Val.text (toString d)
    else Val.num d scale
  | Val.text s =>
    if t = ColType.text then Val.text s
    else
      match textToNat? s with
      | some n => Val.num n 0
      | none => Val.text s

/-- The conversions used to evaluate the examples: path ids and numerals are
read when they are strings of decimal digits. This is what the backend does on
such strings, and the examples bind nothing else that needs a conversion; the
general statements do not depend on this choice. -/
instance plainAffinity : Affinity where
  readKey := textToNat?
  convert := plainConvert

/-- An environment without faults. -/
def calm : Env := { fault := none, lookupFault := none, unlinkError := none, lookupFirst := true }

/-- An environment in which the picture lookup and the file removal both fail
and the delete statement reaches the backend first. -/
def rough : Env :=
  { fault := none, lookupFault := some "SQLITE_BUSY: database is locked",
    unlinkError := some "ENOENT: no such file or directory", lookupFirst := false }

/-- The product table after `POST /api/products` with the Gym Pass body. -/
def gymDb : Db := (postProducts Db.empty { id := "", body := gymPassBody, file := none } none).db

/-- A payment table with one receipt: payment 1 owns `uploads/picture-1.png`. -/
def paidDb : Db :=
  (postPayments Db.empty
    { id := "", body := [("payment_owner", Val.text "7"), ("method", Val.text "cash")],
      file := some { now := 1, ext := ".png" } } none).db

/-- The request `PUT /api/payments/1` with `method: card` and no file. -/
def cardNoFile : Request :=
  { id := "1", body := [("method", Val.text "card")], file := none }

/-- The request `PUT /api/payments/1` with a new receipt image. -/
def cardNewFile : Request :=
  { id := "1", body := [("method", Val.text "card")], file := some { now := 2, ext := ".jpg" } }

/-- A request whose every field tries to break out of a string literal. -/
def hostile : Request :=
  { id := "1 OR 1=1",
    body := [("name", Val.text "a\x27); DROP TABLE product; --"),
      ("method", Val.text "\x27; DELETE FROM payment; --")],
    file := some { now := 3, ext := ".png\x27--" } }

/-- A user table with one account. -/
def userDb : Db :=
  (postUsers Db.empty
    { id := "",
      body := [("email", Val.text "a@b.com"), ("password", Val.text "secret"),
        ("firstname", Val.text "Ada")],
      file := none } none).db

/-- A login request. -/
def loginWith (email secret : String) : Request :=
  { id := "", body := [("email", Val.text email), ("password", Val.text secret)], file := none }

/-- The request `PUT /api/products/1 {price:39.99}`. -/
def priceOnly : Request := { id := "1", body := [("price", Val.num 3999 2)], file := none }

/-- The request `PUT /api/products/1 {}`. -/
def noFields : Request := { id := "1", body := [], file := none }

/-- The request `POST /api/payments` with the owner given as a string, as a
form field is, and with a `picture` field in the body instead of a file. -/
def ownerAsText : Request :=
  { id := "",
    body := [("payment_owner", Val.text "7"), ("method", Val.text "cash"),
      ("picture", Val.text "receipt.png")],
    file := none }

/-! ## Facts that do not depend on the conversions of the backend -/

theorem digitChar_digit : ∀ m, m < 10 →
    (Nat.digitChar m).isDigit = true ∧ (Nat.digitChar m).toNat - 48 = m := by
  decide

theorem toDigitsCore_append (fuel : Nat) : ∀ (n : Nat) (ds : List Char),
    Nat.toDigitsCore 10 fuel n ds = Nat.toDigitsCore 10 fuel n [] ++ ds := by
  induction fuel with
  | zero => intro n ds; simp [Nat.toDigitsCore]
  | succ f ih =>
    intro n ds
    simp only [Nat.toDigitsCore]
    by_cases h : n / 10 = 0
    · simp [h]
    · simp only [h, if_false]
      rw [ih (n / 10) (Nat.digitChar (n % 10) :: ds), ih (n / 10) [Nat.digitChar (n % 10)]]
      simp

theorem digitsToNat_append (xs : List Char) : ∀ (acc : Nat) (c : Char),
    digitsToNat acc (xs ++ [c])
      = (digitsToNat acc xs).bind
          (fun a => if c.isDigit then some (a * 10 + (c.toNat - 48)) else none) := by
  induction xs with
  | nil => intro acc c; simp [digitsToNat]
  | cons x xs ih =>
    intro acc c
    simp only [List.cons_append, digitsToNat]
    by_cases hx : x.isDigit = true
    · simp [hx, ih]
    · simp [hx]

theorem digitsToNat_toDigitsCore (n : Nat) : ∀ fuel, n < fuel →
    digitsToNat 0 (Nat.toDigitsCore 10 fuel n []) = some n := by
  induction n using Nat.strong_induction_on with
  | _ n ih =>
    intro fuel hf
    cases fuel with
    | zero => omega
    | succ f =>
      simp only [Nat.toDigitsCore]
      have hd := digitChar_digit (n % 10) (Nat.mod_lt n (by decide))
      by_cases h : n / 10 = 0
      · have hn : n % 10 = n := by omega
        rw [hn] at hd
        simp [h, digitsToNat, hd.1, hd.2, hn]
      · simp only [h, if_false]
        rw [toDigitsCore_append, digitsToNat_append, ih (n / 10) (by omega) f (by omega)]
        simp only [Option.bind, hd.1, if_true, hd.2]
        congr 1
        omega

theorem toDigitsCore_ne_nil (n f : Nat) : Nat.toDigitsCore 10 (f + 1) n [] ≠ [] := by
  simp only [Nat.toDigitsCore]
  by_cases h : n / 10 = 0
  · simp [h]
  · simp only [h, if_false]
    rw [toDigitsCore_append]
    simp

theorem textToNat_toString (k : Nat) : textToNat? (toString k) = some k := by
  have hdata : (toString k).data = Nat.toDigitsCore 10 (k + 1) k [] := rfl
  unfold textToNat?
  rw [hdata]
  have hne := toDigitsCore_ne_nil k k
  have hv := digitsToNat_toDigitsCore k (k + 1) (by omega)
  cases hl : Nat.toDigitsCore 10 (k + 1) k [] with
  | nil => exact absurd hl hne
  | cons c cs =>
    rw [hl] at hv
    exact hv

theorem ofTable_tableName (e : Entity) : Entity.ofTable? e.tableName = some e := by
  cases e <;> rfl

theorem table_eta (t : Table) : ({ rows := t.rows, seq := t.seq } : Table) = t := rfl

theorem parse_selectAll (e : Entity) :
    parseSql ("SELECT * FROM " ++ e.tableName) = some (Stmt.select none e.tableName []) := by
  cases e <;> rfl

theorem parse_selectById (e : Entity) :
    parseSql ("SELECT * FROM " ++ e.tableName ++ " WHERE id = ?")
      = some (Stmt.select none e.tableName ["id"]) := by
  cases e <;> rfl

theorem parse_deleteById (e : Entity) :
    parseSql ("DELETE FROM " ++ e.tableName ++ " WHERE id = ?")
      = some (Stmt.delete e.tableName ["id"]) := by
  cases e <;> rfl

theorem lookup_zip_map (cols : List String) (f : String → Val) (c : String) :
    (cols.zip (cols.map f)).lookup c = if c ∈ cols then some (f c) else none := by
  induction cols with
  | nil => simp
  | cons a as ih =>
    simp only [List.map_cons, List.zip_cons_cons, List.lookup_cons, List.mem_cons]
    by_cases h : c = a
    · subst h
      simp
    · have hb : (c == a) = false := by simpa using h
      simp [hb, h, ih]

theorem lookup_map_self (cols : List String) (f : String → Val) (c : String) :
    (cols.map (fun x => (x, f x))).lookup c = if c ∈ cols then some (f c) else none := by
  induction cols with
  | nil => simp
  | cons a as ih =>
    simp only [List.map_cons, List.lookup_cons, List.mem_cons]
    by_cases h : c = a
    · subst h
      simp
    · have hb : (c == a) = false := by simpa using h
      simp [hb, h, ih]

theorem path_ne_empty (f : UploadedFile) : f.path ≠ "" := by
  intro h
  have hlen := congrArg String.length h
  unfold UploadedFile.path at hlen
  rw [String.length_append] at hlen
  have h8 : "uploads/".length = 8 := by decide
  rw [h8] at hlen
  have h0 : "".length = 0 := by decide
  omega

theorem truthy_path (f : UploadedFile) : truthy (Val.text f.path) = true := by
  simp [truthy, path_ne_empty]

theorem putPaymentsSql_eq (req : Request) :
    putPaymentsSql req =
      if req.file.isSome then
        "UPDATE payment SET payment_owner = ?, method = ?, date = ?, picture = ? WHERE id = ?"
      else "UPDATE payment SET payment_owner = ?, method = ?, date = ? WHERE id = ?" := by
  unfold putPaymentsSql picturePath
  cases hf : req.file with
  | none => simp [truthy]
  | some f => simp [truthy_path]

theorem putPaymentsParams_eq (req : Request) :
    putPaymentsParams req =
      [req.body.field "payment_owner", req.body.field "method", req.body.field "date"]
        ++ (match req.file with
            | some f => [some (Val.text f.path)]
            | none => [])
        ++ [some (Val.text req.id)] := by
  unfold putPaymentsParams picturePath
  cases hf : req.file with
  | none => simp [truthy]
  | some f => simp [truthy_path]

theorem knownCols_columns (e : Entity) : knownCols e e.columns = true := by
  cases e <;> rfl

theorem id_not_column (e : Entity) : "id" ∉ e.columns := by
  cases e <;> decide

theorem toObj_lookup (e : Entity) (r : Row) (c : String) (hc : c ∈ e.columns) :
    (r.toObj e.columns).lookup c = some (r.vals c) := by
  have hne : c ≠ "id" := fun h => id_not_column e (h ▸ hc)
  have hb : (c == "id") = false := by simpa using hne
  simp only [Row.toObj, List.lookup_cons, hb]
  rw [lookup_map_self]
  simp [hc]

theorem le_maxId (rows : List Row) (r : Row) (h : r ∈ rows) : r.id ≤ maxId rows := by
  induction rows with
  | nil => cases h
  | cons a as ih =>
    simp only [maxId, List.foldr_cons]
    rcases List.mem_cons.mp h with h | h
    · subst h
      exact Nat.le_max_left _ _
    · exact Nat.le_trans (ih h) (Nat.le_max_right _ _)

theorem lt_nextId (t : Table) (r : Row) (h : r ∈ t.rows) : r.id < t.nextId := by
  have := le_maxId t.rows r h
  unfold Table.nextId
  omega

theorem seq_lt_nextId (t : Table) : t.seq < t.nextId := by
  unfold Table.nextId
  omega

theorem map_id_update (rows : List Row) (p : Row → Bool) (f : Row → Row)
    (hf : ∀ r, (f r).id = r.id) :
    (rows.map (fun r => if p r then f r else r)).map Row.id = rows.map Row.id := by
  rw [List.map_map]
  apply List.map_congr_left
  intro r _
  by_cases h : p r = true <;> simp [h, hf]

theorem length_filter_ne (rows : List Row) (k : Nat) (hnd : (rows.map Row.id).Nodup)
    (hrow : ∃ r ∈ rows, r.id = k) :
    (rows.filter (fun r => r.id != k)).length + 1 = rows.length := by
  induction rows with
  | nil =>
    obtain ⟨r, hr, _⟩ := hrow
    cases hr
  | cons a as ih =>
    simp only [List.map_cons, List.nodup_cons] at hnd
    by_cases ha : a.id = k
    · have hnone : ∀ r ∈ as, (r.id != k) = true := by
        intro r hr
        have : r.id ≠ k := by
          intro hrk
          exact hnd.1 (List.mem_map.mpr ⟨r, hr, by rw [hrk, ha]⟩)
        simpa using this
      have hfil : as.filter (fun r => r.id != k) = as := List.filter_eq_self.mpr hnone
      simp [List.filter_cons, ha, hfil]
    · have hrow2 : ∃ r ∈ as, r.id = k := by
        obtain ⟨r, hr, hrk⟩ := hrow
        rcases List.mem_cons.mp hr with h | h
        · subst h
          exact absurd hrk ha
        · exact ⟨r, h, hrk⟩
      have := ih hnd.2 hrow2
      simp [List.filter_cons, ha]
      omega

theorem empty_ok : DbOk Db.empty := by
  intro e
  exact ⟨List.nodup_nil, fun r hr => by cases hr⟩

theorem declared_columns (e : Entity) : e.declared.map Prod.fst = e.columns := by
  cases e <;> rfl

theorem same_text (x : Val) (s : String) : Val.same x (Val.text s) = true ↔ x = Val.text s := by
  cases x <;> simp [Val.same]

theorem picturePath_fits (req : Request) : fits ColType.text (picturePath req) = true := by
  unfold picturePath
  cases req.file <;> rfl

/-! ## Facts about the backend -/

section
variable [Affinity]

theorem storeValue_null (t : ColType) : storeValue t Val.null = Val.null := by
  simp [storeValue, fits]

theorem storeValue_fits (t : ColType) (v : Val) (h : fits t v = true) : storeValue t v = v := by
  simp [storeValue, h]

theorem hits_iff (id : String) (r : Row) : hits id r = true ↔ Affinity.readKey id = some r.id := by
  simp [hits, keyMatches]

theorem rowMatches_key (ty : String → ColType) (v : Val) (r : Row) :
    rowMatches ty ["id"] [v] r = keyMatches v r.id := by
  simp [rowMatches, cellMatches]

theorem backend_eq (db : Db) (sql : String) (params : List Arg) (st : Stmt)
    (hp : parseSql sql = some st) (hl : params.length ≤ st.slotCount) :
    backend db sql params none
      = execStmt db st (padArgs st.slotCount (params.map bindArg)) := by
  have : ¬ st.slotCount < params.length := by omega
  simp [backend, hp, this]

/-- What `getById` does when the store raises no fault. -/
theorem getById_eq (e : Entity) (db : Db) (req : Request) :
    getById e.tableName db req none =
      { db := db,
        res := match ((db e).rows.filter (hits req.id)).head? with
          | none => messageResponse 404 (e.tableName ++ " not found")
          | some r => { status := 200, body := Payload.obj (r.toObj e.columns) },
        issued := [("SELECT * FROM " ++ e.tableName ++ " WHERE id = ?",
          [some (Val.text req.id)])],
        unlinked := [], log := [] } := by
  simp only [getById, dbGet]
  rw [backend_eq db _ _ _ (parse_selectById e) (by simp [Stmt.slotCount])]
  simp only [execStmt, ofTable_tableName]
  have hf : (rowMatches e.colType ["id"] (padArgs (Stmt.select none e.tableName ["id"]).slotCount
      (List.map bindArg [some (Val.text req.id)]))) = hits req.id := by
    funext r
    simp [padArgs, Stmt.slotCount, bindArg, rowMatches_key, hits]
  rw [hf]
  cases h : ((db e).rows.filter (hits req.id)) with
  | nil => simp [knownFilter]
  | cons r rs => simp [knownFilter, Row.project]

/-- What `deleteById` does when the store raises no fault. -/
theorem deleteById_eq (e : Entity) (db : Db) (req : Request) :
    deleteById e.tableName db req none =
      { db := Function.update db e
          { rows := (db e).rows.filter (fun r => !hits req.id r), seq := (db e).seq },
        res := if (db e).rows.countP (hits req.id) = 0 then
            messageResponse 404 (e.tableName ++ " not found")
          else messageResponse 200 (e.tableName ++ " deleted successfully"),
        issued := [("DELETE FROM " ++ e.tableName ++ " WHERE id = ?",
          [some (Val.text req.id)])],
        unlinked := [], log := [] } := by
  simp only [deleteById, dbRun]
  rw [backend_eq db _ _ _ (parse_deleteById e) (by simp [Stmt.slotCount])]
  simp only [execStmt, ofTable_tableName]
  have hf : (rowMatches e.colType ["id"] (padArgs (Stmt.delete e.tableName ["id"]).slotCount
      (List.map bindArg [some (Val.text req.id)]))) = hits req.id := by
    funext r
    simp [padArgs, Stmt.slotCount, bindArg, rowMatches_key, hits]
  rw [hf]
  by_cases h : (db e).rows.countP (hits req.id) = 0 <;> simp [knownFilter, h]

/-- What the shared `PUT` callback does for a statement that parses to an
update of the columns `cols` keyed by `id`, when the store raises no fault. -/
theorem updateReply_eq (e : Entity) (db : Db) (sql : String) (cols : List String)
    (args : List Arg) (id : String) (label : String) (extra : Obj)
    (hp : parseSql sql = some (Stmt.update e.tableName cols ["id"]))
    (hk : knownCols e cols = true) (hl : args.length = cols.length) :
    updateReply db sql (args ++ [some (Val.text id)]) none label extra =
      { db := Function.update db e
          { rows := (db e).rows.map
              (fun r => if hits id r then r.assign e.colType (cols.zip (args.map bindArg)) else r),
            seq := (db e).seq },
        res := if (db e).rows.countP (hits id) = 0 then
            messageResponse 404 (label ++ " not found")
          else { status := 200,
                 body := Payload.obj (("message", Val.text (label ++ " updated successfully"))
                   :: extra) },
        issued := [(sql, args ++ [some (Val.text id)])],
        unlinked := [], log := [] } := by
  unfold updateReply dbRun
  rw [backend_eq db _ _ _ hp (by simp [Stmt.slotCount, hl])]
  simp only [execStmt, ofTable_tableName, hk]
  have hpad : padArgs (Stmt.update e.tableName cols ["id"]).slotCount
      (List.map bindArg (args ++ [some (Val.text id)]))
      = args.map bindArg ++ [Val.text id] := by
    simp [padArgs, Stmt.slotCount, hl, bindArg]
  rw [hpad]
  have hdrop : List.drop cols.length (args.map bindArg ++ [Val.text id]) = [Val.text id] := by
    rw [List.drop_left']
    simp [hl]
  have hzip : cols.zip (args.map bindArg ++ [Val.text id]) = cols.zip (args.map bindArg) := by
    have := @List.zip_append _ _ cols [] (args.map bindArg) [Val.text id] (by simp [hl])
    simpa using this
  rw [hdrop, hzip]
  have hf : rowMatches e.colType ["id"] [Val.text id] = hits id := by
    funext r
    simp [rowMatches_key, hits]
  rw [hf]
  by_cases h : (db e).rows.countP (hits id) = 0 <;> simp [knownFilter, h]

/-- The driver's `db.run` on a statement that parses to an insert into the
columns `cols`, when the store raises no fault. -/
theorem dbRun_insert_eq (e : Entity) (db : Db) (sql : String) (cols : List String)
    (args : List Arg)
    (hp : parseSql sql = some (Stmt.insert e.tableName cols cols.length))
    (hk : knownCols e cols = true) (hl : args.length = cols.length) :
    dbRun db sql args none =
      Except.ok (Function.update db e
          { rows := (db e).rows ++
              [{ id := (db e).nextId,
                 vals := fun c =>
                   storeValue (e.colType c)
                     (((cols.zip (args.map bindArg)).lookup c).getD Val.null) }],
            seq := (db e).nextId },
        { changes := 1, lastID := (db e).nextId }) := by
  unfold dbRun
  rw [backend_eq db _ _ _ hp (by simp [Stmt.slotCount, hl])]
  simp [execStmt, ofTable_tableName, hk, padArgs, Stmt.slotCount, hl]

/-! ## What each write handler does, in terms of the tables -/

theorem assign_zip_map (ty : String → ColType) (cols : List String) (f : String → Val)
    (r : Row) :
    r.assign ty (cols.zip (cols.map f))
      = { id := r.id,
          vals := fun c => if c ∈ cols then storeValue (ty c) (f c) else r.vals c } := by
  unfold Row.assign
  congr 1
  funext c
  rw [lookup_zip_map]
  by_cases h : c ∈ cols <;> simp [h]

theorem updateReply_issued (db : Db) (sql : String) (params : List Arg)
    (fault : Option String) (label : String) (extra : Obj) :
    (updateReply db sql params fault label extra).issued = [(sql, params)] := by
  unfold updateReply
  split
  · rfl
  · split <;> rfl

theorem insertReply_issued (db : Db) (sql : String) (params : List Arg)
    (fault : Option String) :
    (insertReply db sql params fault).issued = [(sql, params)] := by
  unfold insertReply
  split <;> rfl

theorem plainUpdate_eq (e : Entity) (db : Db) (req : Request) (sql : String)
    (he : e ≠ Entity.payment)
    (hp : parseSql sql = some (Stmt.update e.tableName e.columns ["id"])) :
    updateReply db sql
        (e.columns.map (fun c => req.body.field c) ++ [some (Val.text req.id)]) none e.label []
      = updateOutcome e db req []
          [(sql, e.columns.map (fun c => req.body.field c) ++ [some (Val.text req.id)])] := by
  rw [updateReply_eq e db sql e.columns _ req.id e.label [] hp (knownCols_columns e)
    (by simp)]
  have hm : (e.columns.map (fun c => req.body.field c)).map bindArg
      = e.columns.map (boundValue e req) := by
    simp [boundValue, he]
  have hw : writtenColumns e req = e.columns := by
    cases e <;> simp [writtenColumns] at he ⊢
  simp only [hm, assign_zip_map, updateOutcome, Row.updated, hw, storedValue]

theorem paymentUpdate_eq (db : Db) (req : Request) :
    putPayments db req none
      = updateOutcome Entity.payment db req [("picture", picturePath req)]
          [(putPaymentsSql req, putPaymentsParams req)] := by
  simp only [putPayments]
  rw [putPaymentsSql_eq, putPaymentsParams_eq]
  cases hf : req.file with
  | none =>
    have h := updateReply_eq Entity.payment db
      "UPDATE payment SET payment_owner = ?, method = ?, date = ? WHERE id = ?"
      ["payment_owner", "method", "date"]
      [req.body.field "payment_owner", req.body.field "method", req.body.field "date"]
      req.id "Payment" [("picture", picturePath req)] rfl rfl rfl
    simp only [Option.isSome, List.append_nil, if_false, Bool.false_eq_true] at h ⊢
    rw [h]
    have hm : [req.body.field "payment_owner", req.body.field "method",
        req.body.field "date"].map bindArg
        = ["payment_owner", "method", "date"].map (boundValue Entity.payment req) := by
      simp [boundValue]
    simp only [hm, assign_zip_map, updateOutcome, Row.updated, writtenColumns, hf, storedValue,
      Option.isSome, if_false, Bool.false_eq_true, Entity.label]
  | some f =>
    have h := updateReply_eq Entity.payment db
      "UPDATE payment SET payment_owner = ?, method = ?, date = ?, picture = ? WHERE id = ?"
      ["payment_owner", "method", "date", "picture"]
      [req.body.field "payment_owner", req.body.field "method", req.body.field "date",
        some (Val.text f.path)]
      req.id "Payment" [("picture", picturePath req)] rfl rfl rfl
    simp only [Option.isSome, if_true, List.cons_append, List.nil_append] at h ⊢
    rw [h]
    have hm : [req.body.field "payment_owner", req.body.field "method",
        req.body.field "date", some (Val.text f.path)].map bindArg
        = ["payment_owner", "method", "date", "picture"].map
            (boundValue Entity.payment req) := by
      simp [boundValue, picturePath, hf, bindArg]
    simp only [hm, assign_zip_map, updateOutcome, Row.updated, writtenColumns, hf, storedValue,
      Option.isSome, if_true, Entity.label]

/-- The outcome of a `PUT` that meets no fault: the selected rows of the
entity's table are rewritten, nothing else changes. -/
theorem update_eq (e : Entity) (db : Db) (req : Request) :
    update e db req none
      = updateOutcome e db req (updateExtra e req) (update e db req none).issued := by
  cases e
  case payment =>
    simp only [update]
    rw [paymentUpdate_eq]
    rfl
  case product =>
    simp only [update, putProducts]
    refine (plainUpdate_eq Entity.product db req _ (by decide) ?_).trans ?_
    · rfl
    · rw [updateReply_issued]
      rfl
  case user =>
    simp only [update, putUsers]
    refine (plainUpdate_eq Entity.user db req _ (by decide) ?_).trans ?_
    · rfl
    · rw [updateReply_issued]
      rfl
  case subscription =>
    simp only [update, putSubscriptions]
    refine (plainUpdate_eq Entity.subscription db req _ (by decide) ?_).trans ?_
    · rfl
    · rw [updateReply_issued]
      rfl
  case promotion =>
    simp only [update, putPromotions]
    refine (plainUpdate_eq Entity.promotion db req _ (by decide) ?_).trans ?_
    · rfl
    · rw [updateReply_issued]
      rfl
  case contact =>
    simp only [update, putContacts]
    refine (plainUpdate_eq Entity.contact db req _ (by decide) ?_).trans ?_
    · rfl
    · rw [updateReply_issued]
      rfl

theorem created_vals (e : Entity) (req : Request) (f : String → Val)
    (hf : ∀ c ∈ e.columns, f c = boundValue e req c) (key : Nat) :
    ({ id := key,
       vals := fun c =>
         storeValue (e.colType c)
           (((e.columns.zip (e.columns.map f)).lookup c).getD Val.null) } : Row)
      = Row.created e req key := by
  unfold Row.created
  congr 1
  funext c
  rw [lookup_zip_map]
  by_cases h : c ∈ e.columns
  · simp [h, hf c h, storedValue]
  · simp [h, storeValue_null]

theorem plainCreate_eq (e : Entity) (db : Db) (req : Request) (sql : String)
    (he : e ≠ Entity.payment)
    (hp : parseSql sql = some (Stmt.insert e.tableName e.columns e.columns.length)) :
    insertReply db sql (e.columns.map (fun c => req.body.field c)) none
      = createOutcome e db req [] [(sql, e.columns.map (fun c => req.body.field c))] := by
  unfold insertReply
  rw [dbRun_insert_eq e db sql e.columns _ hp (knownCols_columns e) (by simp)]
  simp only [List.map_map]
  rw [created_vals e req _ (by intro c _; simp [boundValue, he])]
  rfl

theorem paymentCreate_eq (db : Db) (req : Request) :
    postPayments db req none
      = createOutcome Entity.payment db req [("picture", picturePath req)]
          [("INSERT INTO payment (payment_owner, method, date, picture) VALUES (?, ?, ?, ?)",
            [req.body.field "payment_owner", req.body.field "method", req.body.field "date",
              some (picturePath req)])] := by
  simp only [postPayments]
  rw [dbRun_insert_eq Entity.payment db
    "INSERT INTO payment (payment_owner, method, date, picture) VALUES (?, ?, ?, ?)"
    Entity.payment.columns _ rfl rfl rfl]
  have hm : [req.body.field "payment_owner", req.body.field "method", req.body.field "date",
      some (picturePath req)].map bindArg
      = Entity.payment.columns.map (boundValue Entity.payment req) := by
    simp [boundValue, bindArg, Entity.columns]
  rw [hm, created_vals Entity.payment req _ (by intro c _; rfl)]
  rfl

theorem postPayments_issued (db : Db) (req : Request) (fault : Option String) :
    (postPayments db req fault).issued
      = [("INSERT INTO payment (payment_owner, method, date, picture) VALUES (?, ?, ?, ?)",
          [req.body.field "payment_owner", req.body.field "method", req.body.field "date",
            some (picturePath req)])] := by
  simp only [postPayments]
  split <;> rfl

/-- The outcome of a `POST` that meets no fault: one row is appended under a
fresh key, nothing else changes. -/
theorem create_eq (e : Entity) (db : Db) (req : Request) :
    create e db req none
      = createOutcome e db req (createExtra e req) (create e db req none).issued := by
  cases e
  case payment =>
    simp only [create]
    rw [paymentCreate_eq]
    rfl
  case product =>
    simp only [create, postProducts]
    refine (plainCreate_eq Entity.product db req _ (by decide) ?_).trans ?_
    · rfl
    · rw [insertReply_issued]
      rfl
  case user =>
    simp only [create, postUsers]
    refine (plainCreate_eq Entity.user db req _ (by decide) ?_).trans ?_
    · rfl
    · rw [insertReply_issued]
      rfl
  case subscription =>
    simp only [create, postSubscriptions]
    refine (plainCreate_eq Entity.subscription db req _ (by decide) ?_).trans ?_
    · rfl
    · rw [insertReply_issued]
      rfl
  case promotion =>
    simp only [create, postPromotions]
    refine (plainCreate_eq Entity.promotion db req _ (by decide) ?_).trans ?_
    · rfl
    · rw [insertReply_issued]
      rfl
  case contact =>
    simp only [create, postContacts]
    refine (plainCreate_eq Entity.contact db req _ (by decide) ?_).trans ?_
    · rfl
    · rw [insertReply_issued]
      rfl

/-! ## Faults -/

theorem backend_fault (db : Db) (sql : String) (params : List Arg) (msg : String) :
    backend db sql params (some msg) = Except.error msg := rfl

theorem updateReply_fault (db : Db) (sql : String) (params : List Arg) (msg : String)
    (label : String) (extra : Obj) :
    updateReply db sql params (some msg) label extra
      = { db := db, res := storeFailure msg, issued := [(sql, params)], unlinked := [],
          log := [] } := rfl

theorem update_fault (e : Entity) (db : Db) (req : Request) (msg : String) :
    (update e db req (some msg)).db = db ∧ (update e db req (some msg)).res = storeFailure msg := by
  cases e <;> exact ⟨rfl, rfl⟩

theorem create_fault (e : Entity) (db : Db) (req : Request) (msg : String) :
    (create e db req (some msg)).db = db ∧ (create e db req (some msg)).res = storeFailure msg := by
  cases e <;> exact ⟨rfl, rfl⟩

theorem getById_fault (t : String) (db : Db) (req : Request) (msg : String) :
    (getById t db req (some msg)).db = db
      ∧ (getById t db req (some msg)).res = storeFailure msg := ⟨rfl, rfl⟩

theorem deleteById_fault (t : String) (db : Db) (req : Request) (msg : String) :
    (deleteById t db req (some msg)).db = db
      ∧ (deleteById t db req (some msg)).res = storeFailure msg := ⟨rfl, rfl⟩

/-! ## Reads -/

theorem getAll_db (e : Entity) (db : Db) (fault : Option String) :
    (getAll e.tableName db fault).db = db := by
  cases fault with
  | some msg => rfl
  | none =>
    simp only [getAll, dbAll]
    rw [backend_eq db _ _ _ (parse_selectAll e) (by simp [Stmt.slotCount])]
    simp [execStmt, ofTable_tableName, knownFilter]

/-- What `login` does when the store raises no fault. -/
theorem login_eq (db : Db) (req : Request) :
    login db req none =
      { db := db,
        res := match ((db Entity.user).rows.filter (credentialsMatch req)).head? with
          | none =>
            { status := 401,
              body := Payload.obj [("error", Val.text "Invalid email or password")] }
          | some r =>
            { status := 200,
              body := Payload.obj
                ((r.toObj Entity.user.columns).filter (fun p => p.1 != "password")) },
        issued := [("SELECT * FROM user WHERE email = ? AND password = ?",
          [req.body.field "email", req.body.field "password"])],
        unlinked := [], log := [] } := by
  simp only [login, dbGet]
  rw [backend_eq db "SELECT * FROM user WHERE email = ? AND password = ?" _
    (Stmt.select none "user" ["email", "password"]) rfl (by simp [Stmt.slotCount])]
  have ht : Entity.ofTable? "user" = some Entity.user := rfl
  simp only [execStmt, ht]
  have hf : (rowMatches Entity.user.colType ["email", "password"]
      (padArgs (Stmt.select none "user" ["email", "password"]).slotCount
        (List.map bindArg [req.body.field "email", req.body.field "password"])))
      = credentialsMatch req := by
    funext r
    simp [padArgs, Stmt.slotCount, credentialsMatch]
  rw [hf]
  have hk : (knownFilter Entity.user ["email", "password"]
      && knownFilter Entity.user ((none : Option (List String)).getD [])) = true := rfl
  rw [if_pos hk]
  cases h : ((db Entity.user).rows.filter (credentialsMatch req)) with
  | nil => simp
  | cons r rs => simp [Row.project]

/-- What the picture lookup of the payment delete returns when it meets no fault. -/
theorem pictureLookup_eq (db : Db) (id : String) :
    dbGet db "SELECT picture FROM payment WHERE id = ?" [some (Val.text id)] none
      = Except.ok (db, (((db Entity.payment).rows.filter (hits id)).head?).map
          (fun r => [("picture", r.vals "picture")])) := by
  simp only [dbGet]
  rw [backend_eq db "SELECT picture FROM payment WHERE id = ?" _
    (Stmt.select (some ["picture"]) "payment" ["id"]) rfl (by simp [Stmt.slotCount])]
  have ht : Entity.ofTable? "payment" = some Entity.payment := rfl
  simp only [execStmt, ht]
  have hf : (rowMatches Entity.payment.colType ["id"]
      (padArgs (Stmt.select (some ["picture"]) "payment" ["id"]).slotCount
        (List.map bindArg [some (Val.text id)]))) = hits id := by
    funext r
    simp [padArgs, Stmt.slotCount, bindArg, rowMatches_key, hits]
  rw [hf]
  have hk : (knownFilter Entity.payment ["id"]
      && knownFilter Entity.payment ((some ["picture"] : Option (List String)).getD []))
      = true := rfl
  rw [if_pos hk]
  cases h : ((db Entity.payment).rows.filter (hits id)) with
  | nil => simp
  | cons r rs => simp [Row.project, Row.col]

/-- The picture lookup never changes the database. -/
theorem pictureCleanup_db (db : Db) (req : Request) (env : Env) :
    (pictureCleanup db req env).1 = db := by
  unfold pictureCleanup
  cases hl : env.lookupFault with
  | some msg => rfl
  | none =>
    rw [pictureLookup_eq]
    cases ((db Entity.payment).rows.filter (hits req.id)).head? with
    | none => rfl
    | some r =>
      simp only [Option.map, Obj.field, List.lookup, beq_self_eq_true]
      split
      · split <;> rfl
      · rfl

/-- The payment delete answers and leaves the database as `deleteById` does. -/
theorem deletePayments_eq (db : Db) (req : Request) (env : Env) :
    (deletePayments db req env).res = (deleteById "payment" db req env.fault).res
      ∧ (deletePayments db req env).db = (deleteById "payment" db req env.fault).db := by
  unfold deletePayments
  cases env.lookupFirst with
  | true => simp [pictureCleanup_db]
  | false => simp [pictureCleanup_db]

/-! ## The effect of one call on the database, and what every call preserves -/

theorem delete_eq (e : Entity) (db : Db) (req : Request) (env : Env) :
    (delete e db req env).res = (deleteById e.tableName db req env.fault).res
      ∧ (delete e db req env).db = (deleteById e.tableName db req env.fault).db := by
  cases e
  case payment => exact deletePayments_eq db req env
  all_goals exact ⟨rfl, rfl⟩

theorem handle_step (ep : Endpoint) (db : Db) (req : Request) (env : Env) :
    Step db (handle ep db req env).db := by
  cases ep with
  | login =>
    simp only [handle]
    cases env.fault with
    | some msg => exact Step.same
    | none =>
      rw [login_eq]
      exact Step.same
  | crud e op =>
    cases op with
    | list =>
      simp only [handle]
      rw [getAll_db]
      exact Step.same
    | get =>
      simp only [handle]
      cases env.fault with
      | some msg => exact Step.same
      | none =>
        rw [getById_eq]
        exact Step.same
    | create =>
      simp only [handle]
      cases env.fault with
      | some msg =>
        rw [(create_fault e db req msg).1]
        exact Step.same
      | none =>
        rw [create_eq]
        exact Step.created e req
    | update =>
      simp only [handle]
      cases env.fault with
      | some msg =>
        rw [(update_fault e db req msg).1]
        exact Step.same
      | none =>
        rw [update_eq]
        exact Step.updated e req
    | delete =>
      simp only [handle]
      rw [(delete_eq e db req env).2]
      cases env.fault with
      | some msg => exact Step.same
      | none =>
        rw [deleteById_eq]
        exact Step.deleted e req.id

theorem step_ok (db db2 : Db) (h : DbOk db) (hs : Step db db2) : DbOk db2 := by
  cases hs with
  | same => exact h
  | created e req =>
    intro e2
    by_cases he : e2 = e
    · subst he
      simp only [Function.update_same]
      constructor
      · simp only [List.map_append, List.map_cons, List.map_nil, Row.created]
        apply List.Nodup.append (h e2).1 (by simp)
        intro k hk1 hk2
        simp only [List.mem_singleton] at hk2
        obtain ⟨r, hr, hrk⟩ := List.mem_map.mp hk1
        have := lt_nextId (db e2) r hr
        omega
      · intro r hr
        rcases List.mem_append.mp hr with hr | hr
        · exact Nat.le_of_lt (lt_nextId (db e2) r hr)
        · simp only [List.mem_singleton] at hr
          subst hr
          exact Nat.le_refl _
    · rw [Function.update_noteq he]
      exact h e2
  | updated e req =>
    intro e2
    by_cases he : e2 = e
    · subst he
      simp only [Function.update_same]
      constructor
      · show (List.map Row.id (List.map _ _)).Nodup
        rw [map_id_update _ (hits req.id) (Row.updated e2 req) (fun r => rfl)]
        exact (h e2).1
      · intro r hr
        obtain ⟨r0, hr0, hrr⟩ := List.mem_map.mp hr
        have hid : r.id = r0.id := by
          rw [← hrr]
          by_cases hh : hits req.id r0 = true <;> simp [hh, Row.updated]
        rw [hid]
        exact (h e2).2 r0 hr0
    · rw [Function.update_noteq he]
      exact h e2
  | deleted e id =>
    intro e2
    by_cases he : e2 = e
    · subst he
      simp only [Function.update_same]
      constructor
      · exact ((h e2).1.sublist ((List.filter_sublist _).map Row.id))
      · intro r hr
        exact (h e2).2 r (List.mem_of_mem_filter hr)
    · rw [Function.update_noteq he]
      exact h e2

theorem runCalls_ok (cs : List Call) (db : Db) (h : DbOk db) : DbOk (runCalls db cs) := by
  induction cs generalizing db with
  | nil => exact h
  | cons c cs ih => exact ih _ (step_ok _ _ h (handle_step c.ep db c.req c.env))

theorem reachable_ok (db : Db) (h : Reachable db) : DbOk db := by
  obtain ⟨cs, rfl⟩ := h
  exact runCalls_ok cs _ empty_ok

theorem step_gone (e : Entity) (k : Nat) (db db2 : Db) (h : Gone e k db) (hs : Step db db2) :
    Gone e k db2 := by
  cases hs with
  | same => exact h
  | created e2 req =>
    by_cases he : e = e2
    · subst he
      simp only [Gone, Function.update_same]
      have hseq := seq_lt_nextId (db e)
      have hk := h.2
      constructor
      · intro r hr
        rcases List.mem_append.mp hr with hr | hr
        · exact h.1 r hr
        · simp only [List.mem_singleton] at hr
          subst hr
          simp only [Row.created]
          omega
      · omega
    · simp only [Gone, Function.update_noteq he]
      exact h
  | updated e2 req =>
    by_cases he : e = e2
    · subst he
      simp only [Gone, Function.update_same]
      refine ⟨?_, h.2⟩
      intro r hr
      obtain ⟨r0, hr0, hrr⟩ := List.mem_map.mp hr
      have hid : r.id = r0.id := by
        rw [← hrr]
        by_cases hh : hits req.id r0 = true <;> simp [hh, Row.updated]
      rw [hid]
      exact h.1 r0 hr0
    · simp only [Gone, Function.update_noteq he]
      exact h
  | deleted e2 id =>
    by_cases he : e = e2
    · subst he
      simp only [Gone, Function.update_same]
      exact ⟨fun r hr => h.1 r (List.mem_of_mem_filter hr), h.2⟩
    · simp only [Gone, Function.update_noteq he]
      exact h

theorem runCalls_gone (e : Entity) (k : Nat) (cs : List Call) (db : Db) (h : Gone e k db) :
    Gone e k (runCalls db cs) := by
  induction cs generalizing db with
  | nil => exact h
  | cons c cs ih => exact ih _ (step_gone e k _ _ h (handle_step c.ep db c.req c.env))

/-- With no row selected and no fault, read, update and delete answer 404 and
leave the database as it was. -/
theorem absent_not_found (e : Entity) (db : Db) (req : Request) (env : Env)
    (habs : ∀ r ∈ (db e).rows, hits req.id r = false) (hf : env.fault = none) :
    ((handle (Endpoint.crud e Op.get) db req env).res.status = 404
        ∧ (handle (Endpoint.crud e Op.get) db req env).db = db)
      ∧ ((handle (Endpoint.crud e Op.update) db req env).res.status = 404
        ∧ (handle (Endpoint.crud e Op.update) db req env).db = db)
      ∧ ((handle (Endpoint.crud e Op.delete) db req env).res.status = 404
        ∧ (handle (Endpoint.crud e Op.delete) db req env).db = db) := by
  have hfil : (db e).rows.filter (hits req.id) = [] := by
    rw [List.filter_eq_nil_iff]
    intro r hr
    simp [habs r hr]
  have hcnt : (db e).rows.countP (hits req.id) = 0 := by
    rw [List.countP_eq_zero]
    intro r hr
    simp [habs r hr]
  have hmap : (db e).rows.map (fun r => if hits req.id r then r.updated e req else r)
      = (db e).rows := by
    conv_rhs => rw [← List.map_id (db e).rows]
    apply List.map_congr_left
    intro r hr
    simp [habs r hr]
  have hkeep : (db e).rows.filter (fun r => !hits req.id r) = (db e).rows := by
    rw [List.filter_eq_self]
    intro r hr
    simp [habs r hr]
  refine ⟨?_, ?_, ?_⟩
  · simp only [handle, hf]
    rw [getById_eq]
    simp [hfil, messageResponse]
  · simp only [handle, hf]
    rw [update_eq]
    simp only [updateOutcome, hcnt, hmap, table_eta, Function.update_eq_self, if_true]
    simp [messageResponse]
  · simp only [handle]
    rw [(delete_eq e db req env).1, (delete_eq e db req env).2, hf, deleteById_eq]
    simp only [hcnt, hkeep, table_eta, Function.update_eq_self, if_true]
    simp [messageResponse]

/-! ## The statements handed to the driver -/

theorem getAll_issued (t : String) (db : Db) (fault : Option String) :
    (getAll t db fault).issued = [("SELECT * FROM " ++ t, [])] := by
  simp only [getAll]
  split <;> rfl

theorem getById_issued (t : String) (db : Db) (req : Request) (fault : Option String) :
    (getById t db req fault).issued
      = [("SELECT * FROM " ++ t ++ " WHERE id = ?", [some (Val.text req.id)])] := by
  simp only [getById]
  split <;> rfl

theorem deleteById_issued (t : String) (db : Db) (req : Request) (fault : Option String) :
    (deleteById t db req fault).issued
      = [("DELETE FROM " ++ t ++ " WHERE id = ?", [some (Val.text req.id)])] := by
  simp only [deleteById]
  split
  · rfl
  · split <;> rfl

theorem login_issued (db : Db) (req : Request) (fault : Option String) :
    (login db req fault).issued
      = [("SELECT * FROM user WHERE email = ? AND password = ?",
          [req.body.field "email", req.body.field "password"])] := by
  simp only [login]
  split <;> rfl

theorem deletePayments_issued (db : Db) (req : Request) (env : Env) :
    (deletePayments db req env).issued
      = [("SELECT picture FROM payment WHERE id = ?", [some (Val.text req.id)]),
          ("DELETE FROM payment WHERE id = ?", [some (Val.text req.id)])] := by
  unfold deletePayments
  cases env.lookupFirst <;> simp [deleteById_issued, pictureLookupIssued]

theorem putPayments_issued (db : Db) (req : Request) (fault : Option String) :
    (putPayments db req fault).issued = [(putPaymentsSql req, putPaymentsParams req)] := by
  simp only [putPayments, updateReply_issued]

/-- The trace of a call depends on the route and the request only. -/
theorem handle_issued (ep : Endpoint) (db db2 : Db) (req : Request) (env env2 : Env) :
    (handle ep db req env).issued = (handle ep db2 req env2).issued := by
  cases ep with
  | login => simp only [handle, login_issued]
  | crud e op =>
    cases op with
    | list => simp only [handle, getAll_issued]
    | get => simp only [handle, getById_issued]
    | create =>
      cases e <;>
        simp only [handle, create, postProducts, postUsers, postSubscriptions, postPromotions,
          postContacts, insertReply_issued, postPayments_issued]
    | update =>
      cases e <;>
        simp only [handle, update, putProducts, putUsers, putSubscriptions, putPromotions,
          putContacts, updateReply_issued, putPayments_issued]
    | delete =>
      cases e <;> simp only [handle, delete, deleteById_issued, deletePayments_issued]

/-- Every statement handed over parses, and has exactly one placeholder per
bound parameter. -/
theorem handle_issued_wellformed (ep : Endpoint) (db : Db) (req : Request) (env : Env) :
    ∀ p ∈ (handle ep db req env).issued,
      ∃ st, parseSql p.1 = some st ∧ st.slotCount = p.2.length := by
  cases ep with
  | login =>
    simp only [handle, login_issued, List.mem_singleton, forall_eq]
    exact ⟨_, rfl, rfl⟩
  | crud e op =>
    cases op with
    | list =>
      simp only [handle, getAll_issued, List.mem_singleton, forall_eq]
      exact ⟨_, parse_selectAll e, rfl⟩
    | get =>
      simp only [handle, getById_issued, List.mem_singleton, forall_eq]
      exact ⟨_, parse_selectById e, rfl⟩
    | create =>
      cases e <;>
        simp only [handle, create, postProducts, postUsers, postSubscriptions, postPromotions,
          postContacts, insertReply_issued, postPayments_issued, List.mem_singleton,
          forall_eq] <;>
        exact ⟨_, rfl, rfl⟩
    | update =>
      cases e
      case payment =>
        simp only [handle, update, putPayments_issued, List.mem_singleton, forall_eq]
        rw [putPaymentsSql_eq, putPaymentsParams_eq]
        cases req.file with
        | none => exact ⟨_, rfl, rfl⟩
        | some f => exact ⟨_, rfl, rfl⟩
      all_goals
        simp only [handle, update, putProducts, putUsers, putSubscriptions, putPromotions,
          putContacts, updateReply_issued, List.mem_singleton, forall_eq]
        exact ⟨_, rfl, rfl⟩
    | delete =>
      cases e
      case payment =>
        simp only [handle, delete, deletePayments_issued]
        intro p hp
        rcases List.mem_cons.mp hp with hp | hp
        · subst hp
          exact ⟨_, rfl, rfl⟩
        · rw [List.mem_singleton] at hp
          subst hp
          exact ⟨_, rfl, rfl⟩
      all_goals
        simp only [handle, delete, deleteById_issued, List.mem_singleton, forall_eq]
        exact ⟨_, rfl, rfl⟩

/-! ## Further lemmas for the claims -/

theorem pictureCleanup_log (db : Db) (req : Request) (env : Env) (msg : String)
    (hm : env.unlinkError = some msg) (hu : (pictureCleanup db req env).2.1 ≠ []) :
    ("Error deleting image file: " ++ msg) ∈ (pictureCleanup db req env).2.2 := by
  unfold pictureCleanup at hu ⊢
  cases hres : dbGet db "SELECT picture FROM payment WHERE id = ?" [some (Val.text req.id)]
      env.lookupFault with
  | error m =>
    rw [hres] at hu
    exact absurd rfl hu
  | ok p =>
    obtain ⟨db2, o⟩ := p
    rw [hres] at hu
    cases o with
    | none => exact absurd rfl hu
    | some row =>
      simp only at hu ⊢
      cases hp : row.field "picture" with
      | none =>
        rw [hp] at hu
        exact absurd rfl hu
      | some v =>
        rw [hp] at hu
        simp only at hu ⊢
        by_cases ht : truthy v = true
        · simp [ht, hm]
        · simp [ht] at hu

theorem hits_eq_of_key (id : String) (k : Nat) (h : Affinity.readKey id = some k) (r : Row) :
    hits id r = (r.id == k) := by
  simp only [hits, keyMatches, h]
  by_cases hk : r.id = k
  · subst hk
    simp
  · have : ¬ k = r.id := fun h2 => hk h2.symm
    simp [hk, this]

theorem cellMatches_text (ty : String → ColType) (r : Row) (c s : String) (hc : c ≠ "id")
    (ht : ty c = ColType.text) :
    cellMatches ty r c (Val.text s) = true ↔ r.vals c = Val.text s := by
  simp [cellMatches, hc, storeValue, fits, ht, Row.col, same_text]

theorem credentialsMatch_iff (req : Request) (email secret : String) (r : Row)
    (he : req.body.field "email" = some (Val.text email))
    (hs : req.body.field "password" = some (Val.text secret)) :
    credentialsMatch req r = true
      ↔ r.vals "email" = Val.text email ∧ r.vals "password" = Val.text secret := by
  have h1 := cellMatches_text Entity.user.colType r "email" email (by decide) rfl
  have h2 := cellMatches_text Entity.user.colType r "password" secret (by decide) rfl
  simp only [credentialsMatch, rowMatches, he, hs, bindArg, Option.getD, List.zip_cons_cons,
    List.zip_nil_right, List.all_cons, List.all_nil, Bool.and_true, Bool.and_eq_true, h1, h2]

/-! ## The claims -/

/-- C10: the statement and the parameter array of the payment update are
aligned. The handler hands exactly this pair to the driver; the text has as
many `?` as the array has entries, 5 with an uploaded file and 4 without; the
array is payment_owner, method, date, then the file path when there is a file,
then the path id; the text parses to an update of those columns in that order
filtered by `id = ?`; and the path id is the last parameter. -/
theorem putPayments_statement_aligned (db : Db) (req : Request) (fault : Option String) :
    (putPayments db req fault).issued = [(putPaymentsSql req, putPaymentsParams req)]
      ∧ countPlaceholders (putPaymentsSql req) = (putPaymentsParams req).length
      ∧ (putPaymentsParams req).length = (if req.file.isSome then 5 else 4)
      ∧ putPaymentsParams req
          = [req.body.field "payment_owner", req.body.field "method", req.body.field "date"]
            ++ (match req.file with
                | some f => [some (Val.text f.path)]
                | none => [])
            ++ [some (Val.text req.id)]
      ∧ parseSql (putPaymentsSql req)
          = some (Stmt.update "payment"
              (["payment_owner", "method", "date"]
                ++ (if req.file.isSome then ["picture"] else []))
              ["id"])
      ∧ (putPaymentsParams req).getLast? = some (some (Val.text req.id)) := by
  refine ⟨putPayments_issued db req fault, ?_, ?_, putPaymentsParams_eq req, ?_, ?_⟩
  · rw [putPaymentsSql_eq, putPaymentsParams_eq]
    cases req.file with
    | none => rfl
    | some f => rfl
  · rw [putPaymentsParams_eq]
    cases req.file with
    | none => rfl
    | some f => rfl
  · rw [putPaymentsSql_eq]
    cases req.file with
    | none => rfl
    | some f => rfl
  · rw [putPaymentsParams_eq]
    cases req.file with
    | none => rfl
    | some f => rfl

/-- C8: the statement texts handed to the driver do not depend on the request.
Two calls of the same route (for the payment update: two calls that agree on
whether a file is uploaded) hand over the same texts, whatever the databases,
the path ids, the bodies, the file paths and the faults are; and each text
parses to a statement with exactly one placeholder per bound parameter, so the
values travel in the parameter array only. -/
theorem statement_text_independent_of_request (ep : Endpoint) (db db2 : Db)
    (req req2 : Request) (env env2 : Env)
    (hfile : ep = Endpoint.crud Entity.payment Op.update →
      req.file.isSome = req2.file.isSome) :
    (handle ep db req env).issued.map Prod.fst = (handle ep db2 req2 env2).issued.map Prod.fst
      ∧ ∀ p ∈ (handle ep db req env).issued,
          ∃ st, parseSql p.1 = some st ∧ st.slotCount = p.2.length := by
  refine ⟨?_, handle_issued_wellformed ep db req env⟩
  cases ep with
  | login => simp only [handle, login_issued, List.map]
  | crud e op =>
    cases op with
    | list => simp only [handle, getAll_issued, List.map]
    | get => simp only [handle, getById_issued, List.map]
    | create =>
      cases e <;>
        simp only [handle, create, postProducts, postUsers, postSubscriptions, postPromotions,
          postContacts, insertReply_issued, postPayments_issued, List.map]
    | update =>
      cases e
      case payment =>
        have h := hfile rfl
        simp only [handle, update, putPayments_issued, List.map, putPaymentsSql_eq, h]
      all_goals
        simp only [handle, update, putProducts, putUsers, putSubscriptions, putPromotions,
          putContacts, updateReply_issued, List.map]
    | delete =>
      cases e <;> simp only [handle, delete, deleteById_issued, deletePayments_issued, List.map]

/-- C9: the response and the resulting database of the payment delete are those
of the delete statement alone. Two runs with the same outcome of the delete
statement answer alike and leave the same database, whether or not the picture
lookup fails, whether or not the file removal fails, and in whichever order the
two statements reach the backend; both are what `deleteById` gives; and a file
removal that fails leaves a line in the log. -/
theorem payment_delete_outcome_from_database_alone (db : Db) (req : Request) (env env2 : Env)
    (hf : env.fault = env2.fault) :
    (deletePayments db req env).res = (deletePayments db req env2).res
      ∧ (deletePayments db req env).db = (deletePayments db req env2).db
      ∧ (deletePayments db req env).res = (deleteById "payment" db req env.fault).res
      ∧ (deletePayments db req env).db = (deleteById "payment" db req env.fault).db
      ∧ (∀ msg, env.unlinkError = some msg → (deletePayments db req env).unlinked ≠ [] →
          ("Error deleting image file: " ++ msg) ∈ (deletePayments db req env).log) := by
  have h1 := deletePayments_eq db req env
  have h2 := deletePayments_eq db req env2
  refine ⟨?_, ?_, h1.1, h1.2, ?_⟩
  · rw [h1.1, h2.1, hf]
  · rw [h1.2, h2.2, hf]
  · intro msg hm hu
    unfold deletePayments at hu ⊢
    cases hl : env.lookupFirst with
    | true =>
      simp only [hl, if_true] at hu ⊢
      exact pictureCleanup_log db req env msg hm hu
    | false =>
      simp only [hl] at hu ⊢
      exact pictureCleanup_log _ req env msg hm hu

/-- C3: a payment update without an uploaded file leaves the picture of every
payment row as it was, whatever the body fields are and whether or not the
store faults. -/
theorem payment_update_without_file_keeps_picture (db : Db) (req : Request)
    (fault : Option String) (hfile : req.file = none) :
    ((putPayments db req fault).db Entity.payment).rows.map (fun r => (r.id, r.vals "picture"))
      = (db Entity.payment).rows.map (fun r => (r.id, r.vals "picture")) := by
  cases fault with
  | some msg => rfl
  | none =>
    rw [paymentUpdate_eq]
    simp only [updateOutcome, Function.update_same, List.map_map]
    apply List.map_congr_left
    intro r _
    by_cases hh : hits req.id r = true
    · simp [hh, Row.updated, writtenColumns, hfile]
    · simp [hh]

/-- C5: for every entity and every path id that selects no row of its table
(the backend reads from it no number that is the key of a row), get-by-id,
update and delete each answer 404 when the store raises no fault, and each
leaves the database exactly as it was. -/
theorem absent_id_answers_not_found (e : Entity) (db : Db) (req : Request) (env : Env)
    (habs : ∀ r ∈ (db e).rows, Affinity.readKey req.id ≠ some r.id) (hf : env.fault = none) :
    ((handle (Endpoint.crud e Op.get) db req env).res.status = 404
        ∧ (handle (Endpoint.crud e Op.get) db req env).db = db)
      ∧ ((handle (Endpoint.crud e Op.update) db req env).res.status = 404
        ∧ (handle (Endpoint.crud e Op.update) db req env).db = db)
      ∧ ((handle (Endpoint.crud e Op.delete) db req env).res.status = 404
        ∧ (handle (Endpoint.crud e Op.delete) db req env).db = db) := by
  apply absent_not_found e db req env _ hf
  intro r hr
  have h := habs r hr
  cases hh : hits req.id r with
  | false => rfl
  | true => exact absurd ((hits_iff req.id r).mp hh) h

/-- C6: in every database the service can reach, deleting by the id of an
existing row answers 200 when the store raises no fault, removes that one row
and nothing else (the other rows of the table stay in order, the other tables
are untouched), and from then on, after any further calls whatsoever,
get-by-id, update and delete with that id answer 404. -/
theorem delete_removes_the_row_for_good (e : Entity) (db : Db) (req : Request) (env : Env)
    (k : Nat) (hreach : Reachable db) (hf : env.fault = none)
    (hid : Affinity.readKey req.id = some k) (hrow : ∃ r ∈ (db e).rows, r.id = k) :
    (handle (Endpoint.crud e Op.delete) db req env).res.status = 200
      ∧ ((handle (Endpoint.crud e Op.delete) db req env).db e).rows
          = (db e).rows.filter (fun r => r.id != k)
      ∧ ((handle (Endpoint.crud e Op.delete) db req env).db e).rows.length + 1
          = (db e).rows.length
      ∧ (∀ e2, e2 ≠ e → (handle (Endpoint.crud e Op.delete) db req env).db e2 = db e2)
      ∧ ∀ (cs : List Call) (req2 : Request) (env2 : Env),
          Affinity.readKey req2.id = some k → env2.fault = none →
          (handle (Endpoint.crud e Op.get)
              (runCalls (handle (Endpoint.crud e Op.delete) db req env).db cs) req2
              env2).res.status = 404
            ∧ (handle (Endpoint.crud e Op.update)
              (runCalls (handle (Endpoint.crud e Op.delete) db req env).db cs) req2
              env2).res.status = 404
            ∧ (handle (Endpoint.crud e Op.delete)
              (runCalls (handle (Endpoint.crud e Op.delete) db req env).db cs) req2
              env2).res.status = 404 := by
  have hok := reachable_ok db hreach
  have hfun : (fun r => !hits req.id r) = (fun r : Row => r.id != k) := by
    funext r
    rw [hits_eq_of_key req.id k hid]
    rfl
  have hcnt : (db e).rows.countP (hits req.id) ≠ 0 := by
    obtain ⟨r, hr, hrk⟩ := hrow
    intro h0
    rw [List.countP_eq_zero] at h0
    have := h0 r hr
    rw [hits_eq_of_key req.id k hid] at this
    simp [hrk] at this
  have hdb : (handle (Endpoint.crud e Op.delete) db req env).db
      = Function.update db e
          { rows := (db e).rows.filter (fun r => r.id != k), seq := (db e).seq } := by
    simp only [handle]
    rw [(delete_eq e db req env).2, hf, deleteById_eq, hfun]
  have hres : (handle (Endpoint.crud e Op.delete) db req env).res.status = 200 := by
    simp only [handle]
    rw [(delete_eq e db req env).1, hf, deleteById_eq]
    simp [hcnt, messageResponse]
  have hgone : Gone e k (handle (Endpoint.crud e Op.delete) db req env).db := by
    rw [hdb]
    simp only [Gone, Function.update_same]
    constructor
    · intro r hr
      have := (List.mem_filter.mp hr).2
      simpa using this
    · obtain ⟨r, hr, hrk⟩ := hrow
      rw [← hrk]
      exact (hok e).2 r hr
  refine ⟨hres, ?_, ?_, ?_, ?_⟩
  · rw [hdb, Function.update_same]
  · rw [hdb, Function.update_same]
    exact length_filter_ne _ k (hok e).1 hrow
  · intro e2 he2
    rw [hdb, Function.update_noteq he2]
  · intro cs req2 env2 hid2 hf2
    have hg := runCalls_gone e k cs _ hgone
    have habs : ∀ r ∈ ((runCalls (handle (Endpoint.crud e Op.delete) db req env).db cs) e).rows,
        hits req2.id r = false := by
      intro r hr
      rw [hits_eq_of_key req2.id k hid2]
      have := hg.1 r hr
      simpa using this
    have h := absent_not_found e _ req2 env2 habs hf2
    exact ⟨h.1.1, h.2.1.1, h.2.2.1⟩

/-- C7: login with an email and a secret given as strings, when the store
raises no fault. If some user row has exactly that email and that password,
the answer is 200 with the fields of such a row, in column order, and without
the password field; otherwise the answer is 401 with one fixed body, the same
whether the email or the secret was the wrong one. -/
theorem login_matches_exact_credentials (db : Db) (req : Request) (email secret : String)
    (he : req.body.field "email" = some (Val.text email))
    (hs : req.body.field "password" = some (Val.text secret)) :
    ((∃ r ∈ (db Entity.user).rows,
          r.vals "email" = Val.text email ∧ r.vals "password" = Val.text secret) →
        ∃ r ∈ (db Entity.user).rows,
          r.vals "email" = Val.text email ∧ r.vals "password" = Val.text secret
            ∧ (login db req none).res =
                { status := 200,
                  body := Payload.obj
                    [("id", Val.num r.id 0), ("email", r.vals "email"),
                      ("firstname", r.vals "firstname"), ("lastname", r.vals "lastname"),
                      ("tel", r.vals "tel"), ("date_of_birth", r.vals "date_of_birth"),
                      ("id_card_number", r.vals "id_card_number"),
                      ("member_type", r.vals "member_type")] })
      ∧ ((¬ ∃ r ∈ (db Entity.user).rows,
            r.vals "email" = Val.text email ∧ r.vals "password" = Val.text secret) →
          (login db req none).res =
            { status := 401,
              body := Payload.obj [("error", Val.text "Invalid email or password")] }) := by
  rw [login_eq]
  constructor
  · rintro ⟨r0, hr0, hm0⟩
    cases hfil : (db Entity.user).rows.filter (credentialsMatch req) with
    | nil =>
      have : r0 ∈ (db Entity.user).rows.filter (credentialsMatch req) :=
        List.mem_filter.mpr ⟨hr0, (credentialsMatch_iff req email secret r0 he hs).mpr hm0⟩
      rw [hfil] at this
      cases this
    | cons r rs =>
      have hmem : r ∈ (db Entity.user).rows.filter (credentialsMatch req) := by
        rw [hfil]
        exact List.mem_cons_self r rs
      have hr := List.mem_filter.mp hmem
      have hm := (credentialsMatch_iff req email secret r he hs).mp hr.2
      refine ⟨r, hr.1, hm.1, hm.2, ?_⟩
      simp [Row.toObj, Entity.columns, List.filter]
  · intro hno
    have hfil : (db Entity.user).rows.filter (credentialsMatch req) = [] := by
      rw [List.filter_eq_nil_iff]
      intro r hr hm
      exact hno ⟨r, hr, (credentialsMatch_iff req email secret r he hs).mp hm⟩
    simp [hfil]

/-- C1, amended: for every entity, every path id that the backend reads as the
key `k` and every body, a `PUT` that meets no fault keeps the rows of the table
in place with their keys, and in the row with the key `k` it leaves every
column outside the statement's `SET` list at its previous value and sets to
NULL every column of the `SET` list for which the body has no field. The `SET`
list is all columns of the entity, except that a payment update without an
uploaded file leaves out `picture` (and with a file `picture` is bound to the
file's path, not to a body field). -/
theorem update_keeps_only_unlisted_columns (e : Entity) (db : Db) (req : Request) (k : Nat)
    (hid : Affinity.readKey req.id = some k) :
    List.Forall₂
        (fun r r2 : Row =>
          r2.id = r.id
            ∧ (r.id = k →
                (∀ c, c ∉ writtenColumns e req → r2.vals c = r.vals c)
                  ∧ (∀ c, c ∈ writtenColumns e req →
                      ¬ (e = Entity.payment ∧ c = "picture") →
                      req.body.field c = none → r2.vals c = Val.null)))
        (db e).rows ((update e db req none).db e).rows
      ∧ writtenColumns e req
          = (if e = Entity.payment ∧ req.file = none then ["payment_owner", "method", "date"]
             else e.columns) := by
  rw [update_eq]
  constructor
  · simp only [updateOutcome, Function.update_same]
    rw [List.forall₂_map_right_iff, List.forall₂_same]
    intro r _
    by_cases hh : hits req.id r = true
    · simp only [hh, if_true]
      refine ⟨rfl, fun _ => ⟨?_, ?_⟩⟩
      · intro c hc
        simp [Row.updated, hc]
      · intro c hc hn hv
        simp [Row.updated, hc, storedValue, boundValue, hn, hv, bindArg, storeValue_null]
    · have hne : r.id ≠ k := by
        intro hk
        apply hh
        rw [hits_eq_of_key req.id k hid]
        simp [hk]
      simp only [hh]
      exact ⟨rfl, fun hk => absurd hk hne⟩
  · cases e <;> cases hfile : req.file <;> simp [writtenColumns, Entity.columns, hfile]

/-- C2, amended: a `POST` that meets no fault answers 201 with the generated id
(the payment create adds the picture path), and a get-by-id whose path the
backend reads as that id, served right after without a fault, answers 200
with a row that holds the generated id and, for every field of the body on a
column that the insert binds from the body (every column except the picture of
a payment), what the column stores for the given value: the given value itself
when it is of the column's class (NULL, a string in a `VARCHAR` or `TEXT`
column, a number in an `INTEGER`, `REAL` or `DATETIME` column), its conversion
otherwise. The picture of a payment is the path of the uploaded file, or NULL
without one. -/
theorem create_then_get_returns_stored_values (e : Entity) (db : Db) (req req2 : Request)
    (hid : Affinity.readKey req2.id = some (db e).nextId) :
    (create e db req none).res
        = { status := 201,
            body := Payload.obj (("id", Val.num (db e).nextId 0) :: createExtra e req) }
      ∧ createExtra e req
          = (if e = Entity.payment then [("picture", picturePath req)] else [])
      ∧ ∃ row : Obj,
          (getById e.tableName (create e db req none).db req2 none).res
              = { status := 200, body := Payload.obj row }
            ∧ row.lookup "id" = some (Val.num (db e).nextId 0)
            ∧ (∀ c v, c ∈ e.columns → ¬ (e = Entity.payment ∧ c = "picture") →
                req.body.field c = some v → fits (e.colType c) v = true →
                row.lookup c = some v)
            ∧ (∀ c v, c ∈ e.columns → ¬ (e = Entity.payment ∧ c = "picture") →
                req.body.field c = some v →
                row.lookup c = some (storeValue (e.colType c) v))
            ∧ (e = Entity.payment → row.lookup "picture" = some (picturePath req)) := by
  rw [create_eq]
  refine ⟨rfl, ?_, ?_⟩
  · cases e <;> simp [createExtra]
  · rw [getById_eq]
    simp only [createOutcome, Function.update_same]
    have hold : (db e).rows.filter (hits req2.id) = [] := by
      rw [List.filter_eq_nil_iff]
      intro r hr
      rw [hits_eq_of_key req2.id _ hid]
      have := lt_nextId (db e) r hr
      have hne : r.id ≠ (db e).nextId := by omega
      simpa using hne
    have hnew : hits req2.id (Row.created e req (db e).nextId) = true := by
      rw [hits_eq_of_key req2.id _ hid]
      simp [Row.created]
    rw [List.filter_append, hold]
    simp only [List.nil_append, List.filter_cons, hnew, if_true, List.filter_nil, List.head?_cons]
    refine ⟨_, rfl, ?_, ?_, ?_, ?_⟩
    · simp [Row.toObj, Row.created]
    · intro c v hc hn hv hfit
      rw [toObj_lookup e _ c hc]
      simp [Row.created, hc, storedValue, boundValue, hn, hv, bindArg, storeValue_fits _ _ hfit]
    · intro c v hc hn hv
      rw [toObj_lookup e _ c hc]
      simp [Row.created, hc, storedValue, boundValue, hn, hv, bindArg]
    · intro he
      subst he
      rw [toObj_lookup Entity.payment _ "picture" (by decide)]
      have hty : Entity.payment.colType "picture" = ColType.text := rfl
      simp [Row.created, Entity.columns, storedValue, boundValue, hty,
        storeValue_fits _ _ (picturePath_fits req)]

end

/-! ## The claims at concrete inputs, evaluated with the backend of the examples -/

/-- Witness for C8: a payment update with hostile strings in the path id, the
body and the file name hands over the same text as a harmless one; and a
product created with the name `a'); DROP TABLE product; --` is one more row
that holds this very name. -/
theorem statement_text_independent_of_request_witness :
    (cardNewFile.file.isSome = hostile.file.isSome)
      ∧ (handle (Endpoint.crud Entity.payment Op.update) paidDb cardNewFile calm).issued.map
          Prod.fst
        = (handle (Endpoint.crud Entity.payment Op.update) Db.empty hostile rough).issued.map
          Prod.fst
      ∧ (handle (Endpoint.crud Entity.payment Op.update) Db.empty hostile rough).issued.map
          Prod.fst
        = ["UPDATE payment SET payment_owner = ?, method = ?, date = ?, picture = ? WHERE id = ?"]
      ∧ ((handle (Endpoint.crud Entity.product Op.create) gymDb hostile calm).db
            Entity.product).rows.map (fun r => (r.id, r.vals "name"))
        = [(1, Val.text "Gym Pass"), (2, Val.text "a\x27); DROP TABLE product; --")] :=
  ⟨rfl,
    (statement_text_independent_of_request (Endpoint.crud Entity.payment Op.update)
      paidDb Db.empty cardNewFile hostile calm rough (fun _ => rfl)).1,
    by decide, by decide⟩

/-- Witness for C9: deleting payment 1, whose receipt is on disk, answers and
leaves the table alike in a calm run and in a run where the lookup and the
removal fail. -/
theorem payment_delete_outcome_from_database_alone_witness :
    calm.fault = rough.fault
      ∧ (deletePayments paidDb cardNoFile calm).res = (deletePayments paidDb cardNoFile rough).res
      ∧ (deletePayments paidDb cardNoFile calm).db = (deletePayments paidDb cardNoFile rough).db :=
  ⟨rfl, (payment_delete_outcome_from_database_alone paidDb cardNoFile calm rough rfl).1,
    (payment_delete_outcome_from_database_alone paidDb cardNoFile calm rough rfl).2.1⟩

/-- Witness for C3: `PUT /api/payments/1` with `method: card` and no file keeps
the stored path `uploads/picture-1.png`. -/
theorem payment_update_without_file_keeps_picture_witness :
    cardNoFile.file = none
      ∧ (paidDb Entity.payment).rows.map (fun r => (r.id, r.vals "picture"))
          = [(1, Val.text "uploads/picture-1.png")]
      ∧ ((putPayments paidDb cardNoFile none).db Entity.payment).rows.map
          (fun r => (r.id, r.vals "picture"))
        = (paidDb Entity.payment).rows.map (fun r => (r.id, r.vals "picture")) :=
  ⟨rfl, by decide, payment_update_without_file_keeps_picture paidDb cardNoFile none rfl⟩

/-- Witness for C5: payment 2 does not exist in a table that holds payment 1,
and no product is called `abc`. -/
theorem absent_id_answers_not_found_witness :
    (∀ r ∈ (paidDb Entity.payment).rows, Affinity.readKey "2" ≠ some r.id)
      ∧ rough.fault = none
      ∧ (handle (Endpoint.crud Entity.payment Op.delete) paidDb
          { id := "2", body := [], file := none } rough).res.status = 404
      ∧ (handle (Endpoint.crud Entity.payment Op.delete) paidDb
          { id := "2", body := [], file := none } rough).db = paidDb
      ∧ (handle (Endpoint.crud Entity.product Op.get) gymDb
          { id := "abc", body := [], file := none } calm).res.status = 404
      ∧ (handle (Endpoint.crud Entity.product Op.update) gymDb
          { id := "abc", body := gymPassBody, file := none } calm).db = gymDb :=
  ⟨by decide, rfl,
    (absent_id_answers_not_found Entity.payment paidDb { id := "2", body := [], file := none }
      rough (by decide) rfl).2.2.1,
    (absent_id_answers_not_found Entity.payment paidDb { id := "2", body := [], file := none }
      rough (by decide) rfl).2.2.2,
    (absent_id_answers_not_found Entity.product gymDb { id := "abc", body := [], file := none }
      calm (by decide) rfl).1.1,
    (absent_id_answers_not_found Entity.product gymDb
      { id := "abc", body := gymPassBody, file := none } calm (by decide) rfl).2.1.2⟩

/-- Witness for C6: payment 1 is deleted from the table that holds it; after a
new payment is created, which gets the key 2, payment 1 is still not found. -/
theorem delete_removes_the_row_for_good_witness :
    Reachable paidDb ∧ calm.fault = none ∧ Affinity.readKey cardNoFile.id = some 1
      ∧ (∃ r ∈ (paidDb Entity.payment).rows, r.id = 1)
      ∧ (handle (Endpoint.crud Entity.payment Op.delete) paidDb cardNoFile calm).res.status = 200
      ∧ (handle (Endpoint.crud Entity.payment Op.get)
          (runCalls (handle (Endpoint.crud Entity.payment Op.delete) paidDb cardNoFile calm).db
            [{ ep := Endpoint.crud Entity.payment Op.create, req := cardNewFile, env := calm }])
          cardNoFile calm).res.status = 404 :=
  have hreach : Reachable paidDb :=
    ⟨[{ ep := Endpoint.crud Entity.payment Op.create,
        req := { id := "", body := [("payment_owner", Val.text "7"), ("method", Val.text "cash")],
                 file := some { now := 1, ext := ".png" } },
        env := calm }], rfl⟩
  have hrow : ∃ r ∈ (paidDb Entity.payment).rows, r.id = 1 := by decide
  ⟨hreach, rfl, by decide, hrow,
    (delete_removes_the_row_for_good Entity.payment paidDb cardNoFile calm 1 hreach rfl
      (by decide) hrow).1,
    ((delete_removes_the_row_for_good Entity.payment paidDb cardNoFile calm 1 hreach rfl
      (by decide) hrow).2.2.2.2
        [{ ep := Endpoint.crud Entity.payment Op.create, req := cardNewFile, env := calm }]
        cardNoFile calm (by decide) rfl).1⟩

/-- Witness for C7: the right secret is let in without the password in the
answer; a wrong secret and an unknown email get the same 401. -/
theorem login_matches_exact_credentials_witness :
    ((∃ r ∈ (userDb Entity.user).rows,
        r.vals "email" = Val.text "a@b.com" ∧ r.vals "password" = Val.text "secret"
          ∧ (login userDb (loginWith "a@b.com" "secret") none).res =
              { status := 200,
                body := Payload.obj
                  [("id", Val.num r.id 0), ("email", r.vals "email"),
                    ("firstname", r.vals "firstname"), ("lastname", r.vals "lastname"),
                    ("tel", r.vals "tel"), ("date_of_birth", r.vals "date_of_birth"),
                    ("id_card_number", r.vals "id_card_number"),
                    ("member_type", r.vals "member_type")] }))
      ∧ (login userDb (loginWith "a@b.com" "Secret") none).res =
          { status := 401, body := Payload.obj [("error", Val.text "Invalid email or password")] }
      ∧ (login userDb (loginWith "x@b.com" "secret") none).res =
          { status := 401, body := Payload.obj [("error", Val.text "Invalid email or password")] } :=
  ⟨(login_matches_exact_credentials userDb (loginWith "a@b.com" "secret") "a@b.com" "secret"
      rfl rfl).1 (by decide),
    (login_matches_exact_credentials userDb (loginWith "a@b.com" "Secret") "a@b.com" "Secret"
      rfl rfl).2 (by decide),
    (login_matches_exact_credentials userDb (loginWith "x@b.com" "secret") "x@b.com" "secret"
      rfl rfl).2 (by decide)⟩

/-- Counterexample for C1: on the product `Gym Pass`, `PUT /api/products/1`
with only a price answers 200 and sets the name, which the body does not
mention, to NULL; with an empty body it sets every column to NULL. -/
theorem update_keeps_unmentioned_columns_counterexample :
    (gymDb Entity.product).rows.map (fun r => (r.id, r.vals "name", r.vals "price"))
        = [(1, Val.text "Gym Pass", Val.num 4999 2)]
      ∧ priceOnly.body.field "name" = none
      ∧ (handle (Endpoint.crud Entity.product Op.update) gymDb priceOnly calm).res.status = 200
      ∧ ((handle (Endpoint.crud Entity.product Op.update) gymDb priceOnly calm).db
            Entity.product).rows.map (fun r => (r.id, r.vals "name", r.vals "price"))
        = [(1, Val.null, Val.num 3999 2)]
      ∧ (handle (Endpoint.crud Entity.product Op.update) gymDb noFields calm).res.status = 200
      ∧ ((handle (Endpoint.crud Entity.product Op.update) gymDb noFields calm).db
            Entity.product).rows.map (Row.toObj Entity.product.columns)
        = [[("id", Val.num 1 0), ("package_id", Val.null), ("name", Val.null),
            ("price", Val.null), ("description", Val.null), ("duration", Val.null),
            ("picture", Val.null)]] := by
  decide

/-- Witness for C1, amended: `PUT /api/products/1 {price:39.99}` on the product
`Gym Pass` keeps the key of the row and sets its name to NULL. -/
theorem update_keeps_only_unlisted_columns_witness :
    Affinity.readKey priceOnly.id = some 1
      ∧ List.Forall₂
          (fun r r2 : Row =>
            r2.id = r.id
              ∧ (r.id = 1 →
                  (∀ c, c ∉ writtenColumns Entity.product priceOnly → r2.vals c = r.vals c)
                    ∧ (∀ c, c ∈ writtenColumns Entity.product priceOnly →
                        ¬ (Entity.product = Entity.payment ∧ c = "picture") →
                        priceOnly.body.field c = none → r2.vals c = Val.null)))
          (gymDb Entity.product).rows
          ((update Entity.product gymDb priceOnly none).db Entity.product).rows
      ∧ ((update Entity.product gymDb priceOnly none).db Entity.product).rows.map
          (fun r => (r.id, r.vals "name", r.vals "price"))
        = [(1, Val.null, Val.num 3999 2)] :=
  ⟨by decide, (update_keeps_only_unlisted_columns Entity.product gymDb priceOnly 1 (by decide)).1,
    by decide⟩

/-- Counterexample for C2: a payment created with the owner `"7"` as a string
and with a `picture` field in its body is read back with the number 7 as
owner, which is not the string given, and with a NULL picture. -/
theorem create_then_get_counterexample :
    ownerAsText.body.field "payment_owner" = some (Val.text "7")
      ∧ ownerAsText.body.field "picture" = some (Val.text "receipt.png")
      ∧ (handle (Endpoint.crud Entity.payment Op.create) Db.empty ownerAsText calm).res
          = { status := 201,
              body := Payload.obj [("id", Val.num 1 0), ("picture", Val.null)] }
      ∧ (handle (Endpoint.crud Entity.payment Op.get)
          (handle (Endpoint.crud Entity.payment Op.create) Db.empty ownerAsText calm).db
          { id := "1", body := [], file := none } calm).res
          = { status := 200,
              body := Payload.obj
                [("id", Val.num 1 0), ("payment_owner", Val.num 7 0),
                  ("method", Val.text "cash"), ("date", Val.null),
                  ("picture", Val.null)] } := by
  decide

/-- Witness for C2, amended: the Gym Pass product is created under the id 1 and
read back with the values given, each of the class of its column; the decimal
rendering of a key is always a path that the backend of the examples reads as
that key. -/
theorem create_then_get_returns_stored_values_witness :
    Affinity.readKey "1" = some (Db.empty Entity.product).nextId
      ∧ (create Entity.product Db.empty { id := "", body := gymPassBody, file := none } none).res
          = { status := 201, body := Payload.obj [("id", Val.num 1 0)] }
      ∧ (getById "product" gymDb { id := "1", body := [], file := none } none).res
          = { status := 200,
              body := Payload.obj
                [("id", Val.num 1 0), ("package_id", Val.null), ("name", Val.text "Gym Pass"),
                  ("price", Val.num 4999 2), ("description", Val.null),
                  ("duration", Val.num 30 0), ("picture", Val.null)] }
      ∧ (∀ k : Nat, Affinity.readKey (toString k) = some k) :=
  ⟨by decide,
    (create_then_get_returns_stored_values Entity.product Db.empty
      { id := "", body := gymPassBody, file := none } { id := "1", body := [], file := none }
      (by decide)).1,
    by decide, textToNat_toString⟩

/-- C4, the code at the failing input: payment 1 owns `uploads/picture-1.png`;
`PUT /api/payments/1` with a new file answers 200 and stores the new path, and
no file removal is attempted, by this call or by any payment update, while
the delete handler does pass the stored path to `fs.unlink`. -/
theorem payment_update_never_unlinks_old_blob :
    (paidDb Entity.payment).rows.map (fun r => (r.id, r.vals "picture"))
        = [(1, Val.text "uploads/picture-1.png")]
      ∧ (handle (Endpoint.crud Entity.payment Op.update) paidDb cardNewFile calm).res
          = { status := 200,
              body := Payload.obj [("message", Val.text "Payment updated successfully"),
                ("picture", Val.text "uploads/picture-2.jpg")] }
      ∧ ((handle (Endpoint.crud Entity.payment Op.update) paidDb cardNewFile calm).db
            Entity.payment).rows.map (fun r => (r.id, r.vals "picture"))
          = [(1, Val.text "uploads/picture-2.jpg")]
      ∧ (handle (Endpoint.crud Entity.payment Op.update) paidDb cardNewFile calm).unlinked = []
      ∧ (∀ (A : Affinity) (db : Db) (req : Request) (fault : Option String),
          (@putPayments A db req fault).unlinked = [])
      ∧ (handle (Endpoint.crud Entity.payment Op.delete) paidDb cardNoFile calm).unlinked
          = [Val.text "uploads/picture-1.png"] := by
  refine ⟨by decide, by decide, by decide, by decide, ?_, by decide⟩
  intro A db req fault
  unfold putPayments updateReply
  split
  · rfl
  · split <;> rfl

end TuFitness
